import Mathlib

/-!
# Verification of the Procast agent's query-orchestration core

Shallow embedding of the Procast agent (`src/mcp/tools.py`, `src/agent/…`,
`src/db/schema_registry.py`, `src/dspy_modules/analyzer.py`) and proofs of the
specification's claims about it.

External effects (the `sqlglot` parser, the LLM adapters, the database session,
wall-clock reads) are modelled as oracle values supplied to each operation; all
string manipulation that the Python code performs itself is embedded directly.
Strings are ASCII in all inputs of interest, so Python's Unicode-aware
`upper`/`lower`/`strip` are modelled by their ASCII restrictions.
-/

namespace Procast

/-! ## Python string primitives (modelled on `List Char`) -/

/-- Characters stripped by Python's `str.strip()` (ASCII whitespace). -/
def isPySpace (c : Char) : Bool :=
  c == ' ' || c == '\t' || c == '\n' || c == '\r' || c == '\x0b' || c == '\x0c'

/-- Python `str.strip()` on the character list. -/
def pyStripList (l : List Char) : List Char :=
  ((l.dropWhile isPySpace).reverse.dropWhile isPySpace).reverse

/-- Python `str.strip()`. -/
def pyStrip (s : String) : String := ⟨pyStripList s.data⟩

/-- Python `str.upper()` (ASCII restriction). -/
def pyUpper (s : String) : String := ⟨s.data.map Char.toUpper⟩

/-- Python `str.lower()` (ASCII restriction). -/
def pyLower (s : String) : String := ⟨s.data.map Char.toLower⟩

/-- Python `str.rstrip(';')`: remove trailing `';'` characters. -/
def rstripSemis (s : String) : String :=
  ⟨(s.data.reverse.dropWhile (· == ';')).reverse⟩

/-- A regex word character (`\w`), ASCII restriction: `[A-Za-z0-9_]`. -/
def isWordChar (c : Char) : Bool := c.isAlphanum || c == '_'

/-- `pat` occurs at the head of `l` and the character following the
occurrence (if any) is not a word character: the right half of a
`\bpat\b` regex match at this position, for `pat` made of word characters. -/
def wordAt (pat l : List Char) : Bool :=
  pat.isPrefixOf l &&
    (match l.drop pat.length with
     | [] => true
     | c :: _ => !isWordChar c)

/-- Scan for a `\bpat\b` match; `prevIsWord` records whether the character
just before the current position is a word character (the left boundary). -/
def containsWordAux (pat : List Char) (prevIsWord : Bool) : List Char → Bool
  | [] => false
  | c :: rest =>
    (!prevIsWord && wordAt pat (c :: rest)) || containsWordAux pat (isWordChar c) rest

/-- `re.search(r'\bPAT\b', s)` for a pattern made of word characters. -/
def containsWord (pat s : String) : Bool :=
  containsWordAux pat.data false s.data

/-- Python substring test `pat in l`. -/
def containsSub (pat : List Char) : List Char → Bool
  | [] => pat.isEmpty
  | c :: rest => pat.isPrefixOf (c :: rest) || containsSub pat rest

/-- Search for `\bINTO\b` without crossing a newline (the `.` of the regex
`\bSELECT\b.*\bINTO\b` does not match `'\n'`). -/
def intoSearch (prevIsWord : Bool) : List Char → Bool
  | [] => false
  | c :: rest =>
    (!prevIsWord && wordAt "INTO".data (c :: rest)) ||
      (c != '\n' && intoSearch (isWordChar c) rest)

/-- Scan for a `\bSELECT\b` match followed (without an intervening newline)
by a `\bINTO\b` match. -/
def selectIntoAux (prevIsWord : Bool) : List Char → Bool
  | [] => false
  | c :: rest =>
    (!prevIsWord && wordAt "SELECT".data (c :: rest) &&
      intoSearch true ((c :: rest).drop "SELECT".data.length)) ||
      selectIntoAux (isWordChar c) rest

/-- `re.search(r'\bSELECT\b.*\bINTO\b', s)` as a Boolean. -/
def selectIntoMatch (s : String) : Bool := selectIntoAux false s.data

/-! ## `SQLValidator` (src/mcp/tools.py) -/

namespace SQLValidator

/-- `SQLValidator.FORBIDDEN_KEYWORDS`, in source-literal order (the Python
value is a `set`, whose iteration order is unspecified; only which keywords
are members is observable in the accept/reject outcome). -/
def FORBIDDEN_KEYWORDS : List String :=
  ["INSERT", "UPDATE", "DELETE", "DROP", "CREATE", "ALTER", "TRUNCATE",
   "GRANT", "REVOKE", "EXECUTE", "EXEC", "CALL", "INTO",
   "COPY", "VACUUM", "ANALYZE", "CLUSTER", "REINDEX",
   "SET", "RESET", "SHOW",
   "LOCK", "UNLOCK",
   "BEGIN", "COMMIT", "ROLLBACK", "SAVEPOINT",
   "NOTIFY", "LISTEN", "UNLISTEN",
   "LOAD", "UNLOAD",
   "EXPLAIN"]

/-- `SQLValidator.FORBIDDEN_FUNCTIONS`, in source-literal order. -/
def FORBIDDEN_FUNCTIONS : List String :=
  ["pg_sleep", "pg_terminate_backend", "pg_cancel_backend",
   "pg_read_file", "pg_read_binary_file", "pg_write_file",
   "lo_import", "lo_export",
   "dblink", "dblink_exec"]

/-- Statement types accepted by the validator. -/
def allowedStmtTypes : List String := ["Select", "Union", "Intersect", "Except"]

/-- The keyword loop: first forbidden keyword (other than `INTO`, which is
handled by the SELECT-INTO pre-check) matching `\bkw\b` in the uppercased SQL. -/
def keywordHit (sqlUpper : String) : Option String :=
  FORBIDDEN_KEYWORDS.find? fun k => k != "INTO" && containsWord k sqlUpper

/-- The function loop: first forbidden function occurring as a substring of
the lowercased SQL. -/
def functionHit (sql : String) : Option String :=
  FORBIDDEN_FUNCTIONS.find? fun f => containsSub (pyLower f).data (pyLower sql).data

/-- The per-statement loop of `validate`: `None` statements are skipped; a
non-SELECT statement type, a forbidden keyword, or a forbidden function
rejects. The result of `sqlglot.parse` is an oracle: a list of optional
statement-type names. -/
def validateStmts (sql sqlUpper : String) : List (Option String) → Bool × Option String
  | [] => (true, none)
  | none :: rest => validateStmts sql sqlUpper rest
  | some t :: rest =>
    if allowedStmtTypes.contains t then
      match keywordHit sqlUpper with
      | some k => (false, some ("Forbidden keyword detected: " ++ k))
      | none =>
        match functionHit sql with
        | some f => (false, some ("Forbidden function detected: " ++ f))
        | none => validateStmts sql sqlUpper rest
    else
      (false, some ("Only SELECT queries are allowed, got: " ++ t))

/-- `SQLValidator.validate`. The call to `sqlglot.parse` is an oracle
argument: `Except.error e` models a raised parsing exception (caught and
turned into a rejection), `Except.ok stmts` the parsed statement list, where
each entry is the statement's type name (or `none` for a `None` entry). -/
def validate (sql : String) (parse : Except String (List (Option String))) :
    Bool × Option String :=
  if sql.data.isEmpty || (pyStrip sql).data.isEmpty then
    (false, some "Empty query")
  else
    let sqlUpper := pyUpper sql
    if selectIntoMatch sqlUpper then
      (false, some "SELECT INTO is not allowed")
    else
      match parse with
      | Except.error e => (false, some ("SQL parsing error: " ++ e))
      | Except.ok [] => (false, some "Failed to parse SQL query")
      | Except.ok stmts => validateStmts sql sqlUpper stmts

/-- `SQLValidator.add_limit_if_missing`. -/
def add_limit_if_missing (sql : String) (limit : Nat := 1000) : String :=
  if containsSub "LIMIT".data (pyUpper sql).data then sql
  else rstripSemis sql ++ " LIMIT " ++ toString limit

end SQLValidator

/-! ## Schema registry (src/db/schema_registry.py) -/

/-- `DATABASE_SUMMARY` (src/db/schema_registry.py). -/
def DATABASE_SUMMARY : String :=
  "\nPROCAST DATABASE - Event Budget Management System\n\nDOMAINS:\n1. PROJECTS: Projects, SubProjects, ProjectAccounts, ProjectPeople, Portfolios\n2. BUDGETS: EntryLines (budget items), SubAccounts, EntryLine_H (history)\n3. ACCOUNTS: Accounts, AccountCategories, LegalEntityAccounts\n4. ACTUALS: Invoices, PurchaseOrders, Reconciliations\n5. USERS: People, AspNetUsers, Companies\n6. CURRENCY: Currencies, CurrencyTuples, ConstantFxRates, FinancialYears\n7. REFERENCE: Countries, Regions, Industries, Divisions, CostCodes\n\nKEY FACTS:\n- Budget total = EntryLines.Amount × EntryLines.Quantity\n- Status >= 2 means committed spending\n- IsDisabled = true means soft-deleted (always filter)\n- Projects.OriginalProjectId links scenario copies\n- All monetary amounts need currency conversion via ConstantFxRates\n"

/-- `DOMAIN_TABLES` (src/db/schema_registry.py), as an association list in source order. -/
def DOMAIN_TABLES : List (String × List String) := [
  ("projects", ["Projects", "SubProjects", "ProjectAccounts", "ProjectPeople", "ProjectPortfolios", "Portfolios", "ProjectDivisions", "ProjectIndustries"]),
  ("budgets", ["EntryLines", "EntryLine_H", "SubAccounts", "EntryLineSubProject", "EntryStatuses"]),
  ("accounts", ["Accounts", "AccountCategories", "LegalEntityAccounts", "LegalEntities"]),
  ("actuals", ["Invoices", "PurchaseOrders", "Reconciliations"]),
  ("users", ["People", "AspNetUsers", "AspNetRoles", "AspNetUserRoles", "Companies"]),
  ("currency", ["Currencies", "CurrencyTuples", "ConstantFxRates", "FinancialYears"]),
  ("reference", ["Countries", "Regions", "Industries", "Divisions", "CostCodes", "Folders"]),
  ("workspaces", ["PersonalWorkspaces", "SharedWorkspaces", "Folders"]),
  ("approvals", ["Approvals", "ReviewRequests", "ReviewRequestPeople"])]

/-- `DOMAIN_SCHEMAS` (src/db/schema_registry.py), as an association list in source order. -/
def DOMAIN_SCHEMAS : List (String × String) := [
  ("projects",
   "\n## PROJECTS DOMAIN\n\n### Projects (Main budget container - events)\n- Id: uuid PK\n- Brand: varchar(256) - Project/event name\n- Edition: bigint - Edition number\n- TakePlaceDate: date - Event date\n- Type: integer - Project type\n- OperatingCurrencyId: uuid FK → Currencies\n- CountryId: uuid FK → Countries\n- CostCodeId: uuid FK → CostCodes\n- FolderId: uuid FK → Folders\n- SharedWorkspaceId: uuid FK → SharedWorkspaces\n- OriginalProjectId: uuid FK → Projects (for scenario clones)\n- ScenarioName: varchar(1024)\n- ScenarioPredefinedNameId: uuid FK\n- IsLocked: boolean\n- ApprovalId: uuid FK → Approvals\n- IsDisabled: boolean (soft delete)\n- Created, CreatedBy, LastModified, LastModifiedBy (audit)\n\n### SubProjects (Sub-events within a project)\n- Id: uuid PK\n- Name: varchar(256)\n- ProjectId: uuid FK → Projects\n- CostCodeId: uuid FK → CostCodes\n\n### ProjectAccounts (Links projects to accounts)\n- Id: uuid PK\n- ProjectId: uuid FK → Projects\n- LegalEntityAccountId: uuid FK → LegalEntityAccounts\n- IsDisabled: boolean\n\n### ProjectPeople (Team membership)\n- Id: uuid PK\n- PersonId: uuid FK → People\n- ProjectId: uuid FK → Projects\n- IsApprover: boolean\n- IsOwner: boolean\n- PersonalWorkspaceId: uuid FK\n\n### Portfolios (Groups of projects)\n- Id: uuid PK\n- Name: varchar(1024)\n\n### ProjectPortfolios (Many-to-many)\n- ProjectId: uuid FK → Projects\n- PortfolioId: uuid FK → Portfolios\n"),
  ("budgets",
   "\n## BUDGETS DOMAIN\n\n### EntryLines (Core budget line items) ⭐ CRITICAL\n- Id: uuid PK\n- Description: varchar(2048)\n- Quantity: double precision - Number of units\n- Amount: double precision - Unit price\n- Status: integer (0=Draft, 1=Pending, 2+=Committed)\n- OwnerId: uuid FK → People\n- ProjectAccountId: uuid FK → ProjectAccounts\n- LocalCurrencyId: uuid FK → Currencies\n- SubAccountId: uuid FK → SubAccounts (optional)\n- EntryStatusId: uuid FK → EntryStatuses\n- PurchaseOrderCode: varchar(1024)\n- InvoiceRefCode: varchar(256)\n- SupplierName: varchar(256)\n- ReconciliationId: uuid FK → Reconciliations\n- IsComputedInverse: boolean (revenue flag)\n- IsDisabled: boolean\n\nCALCULATION: Total = Amount × Quantity\nFILTER: Always use IsDisabled = false\n\n### EntryLine_H (Audit history of budget changes) ⭐ TREND ANALYSIS\n- Id: uuid PK\n- Action: text (\"Line Added\", \"Line Deleted\", \"Changes in Line\")\n- TableName: text\n- OldData: text (JSON)\n- NewData: text (JSON)\n- ProjectAccountId: uuid FK → ProjectAccounts\n- LatestViewTotalCurrent: double - Running total after\n- LatestViewTotalPrevious: double - Running total before\n- Created: timestamptz\n- CreatorId, LastModifierId: uuid FK → People\n\n### SubAccounts (Sub-budget allocations)\n- Id: uuid PK\n- Name: text\n- Amount: double - Budgeted amount\n- AccountId: uuid FK → Accounts\n- ProjectId: uuid FK → Projects\n- ProjectAccountId: uuid FK → ProjectAccounts\n- CurrencyId: uuid FK → Currencies\n\n### EntryLineSubProject (Tags entries to sub-projects)\n- EntryLinesId: uuid FK → EntryLines\n- SubProjectsId: uuid FK → SubProjects\n\n### EntryStatuses\n- Id: uuid PK\n- Name: varchar(256)\n"),
  ("accounts",
   "\n## ACCOUNTS DOMAIN\n\n### AccountCategories (Hierarchical expense categories) ⭐\n- Id: uuid PK\n- Name: varchar(2048)\n- ParentCategoryId: uuid FK → AccountCategories (self-reference for hierarchy)\n- CategoryPosition: integer (display order)\n- IsDisabled: boolean\n\n### Accounts (Chart of accounts)\n- Id: uuid PK\n- Number: bigint - Account number (e.g., 5000, 6000)\n- Description: varchar(2048)\n- SubAccountCategoryId: uuid FK → AccountCategories\n- IsDisabled: boolean\n\n### LegalEntityAccounts (Accounts available to each legal entity)\n- Id: uuid PK\n- LegalEntityId: uuid FK → LegalEntities\n- AccountId: uuid FK → Accounts\n\n### LegalEntities (Legal entity/subsidiary)\n- Id: uuid PK\n- Name: varchar(1024)\n- NickName: text\n- CountryId: uuid FK → Countries\n- EntityCurrencyId: uuid FK → Currencies\n"),
  ("actuals",
   "\n## ACTUALS DOMAIN (Realized spending)\n\n### Invoices ⭐ ACTUAL SPENDING\n- Id: uuid PK\n- TransactionId: text - External reference\n- TransactionType: text\n- DateApplied: timestamptz - Invoice date\n- HeaderDescription: text\n- LineDescription: text\n- EntityCurrencyId: uuid FK → Currencies\n- EntityCurrencyTotal: numeric\n- LocalCurrencyId: uuid FK → Currencies\n- LocalCurrencyTotal: numeric\n- PostedFlag: boolean - Is invoice posted\n- PostedDate: timestamptz\n- PostedBy: text\n- CostCodeId: uuid FK → CostCodes\n- AccountId: uuid FK → Accounts\n- InvoiceRefCode: text\n- PurchaseOrderCode: text\n- ReconciliationId: uuid FK → Reconciliations\n- LegalEntityName: text\n- IsNetOffed: boolean\n- IsDisabled: boolean\n\n### PurchaseOrders ⭐ COMMITTED SPENDING\n- Id: uuid PK\n- TransactionId: text\n- PurchaseOrderCode: text\n- PurchaseOrderStatus: integer (0=Draft, 1=Approved, etc.)\n- EntityCurrencyTotal: numeric\n- LocalCurrencyTotal: numeric\n- DateApplied: timestamptz\n- PostedFlag: boolean\n- CostCodeId: uuid FK → CostCodes\n- AccountId: uuid FK → Accounts\n- LegalEntityName: text\n- EntityCurrencyId, LocalCurrencyId: uuid FK → Currencies\n\n### Reconciliations\n- Id: uuid PK\n- Created: timestamptz\n"),
  ("users",
   "\n## USERS DOMAIN\n\n### People (Central user entity) ⭐\n- Id: uuid PK\n- Email: varchar(256) UNIQUE\n- FirstName: varchar(512)\n- LastName: text\n- AvatarUrl: varchar(4096)\n- CompanyId: uuid FK → Companies\n- IsArchived: boolean\n- IsDisabled: boolean\n\n### AspNetUsers (Identity)\n- Id: text PK\n- PersonId: uuid FK → People\n- UserName: varchar(256)\n- Email: varchar(256)\n- PasswordHash: text\n- FirstLogin: boolean\n- TwoFactorEnabled: boolean\n\n### Companies (Organizations)\n- Id: uuid PK\n- Name: varchar(1024)\n- Address: varchar(1024)\n- PhoneNumber: varchar(128)\n- Email: varchar(256)\n- LogoUrl: varchar(4096)\n- ReportingCurrencyId: uuid FK → Currencies\n- IsInverseRevenue: boolean\n"),
  ("currency",
   "\n## CURRENCY DOMAIN\n\n### Currencies\n- Id: uuid PK\n- IsoCode: varchar(3) - ISO 4217 (USD, EUR, GBP)\n\n### CurrencyTuples (Conversion pairs)\n- Id: uuid PK\n- FromCurrencyId: uuid FK → Currencies\n- ToCurrencyId: uuid FK → Currencies\n\n### ConstantFxRates ⭐ CURRENCY CONVERSION\n- Id: uuid PK\n- MonthOrder: integer (1-12)\n- Value: double - Exchange rate\n- FinancialYearId: uuid FK → FinancialYears\n- CurrencyTupleId: uuid FK → CurrencyTuples\n\nUSAGE: Convert via CurrencyTuples → ConstantFxRates\n\n### FinancialYears\n- Id: uuid PK\n- Year: integer (2024, 2025)\n- StartDate: date\n- EndDate: date\n"),
  ("reference",
   "\n## REFERENCE DOMAIN\n\n### Countries\n- Id: uuid PK\n- IsoCode: varchar(3) - ISO 3166\n- Name: varchar(256)\n\n### Regions\n- Id: uuid PK\n- Name: varchar(256)\n\n### Industries\n- Id: uuid PK\n- Name: varchar(256)\n\n### Divisions\n- Id: uuid PK\n- Name: varchar(256)\n\n### CostCodes\n- Id: uuid PK\n- Code: varchar(128)\n- Description: varchar(1024)\n\n### Folders\n- Id: uuid PK\n- Name: varchar(256)\n- PersonalWorkspaceId: uuid FK\n- SharedWorkspaceId: uuid FK\n"),
  ("workspaces",
   "\n## WORKSPACES DOMAIN\n\n### PersonalWorkspaces\n- Id: uuid PK\n- Name: varchar(256)\n\n### SharedWorkspaces\n- Id: uuid PK\n- Name: varchar(256)\n\n### Folders\n- Id: uuid PK\n- Name: varchar(256)\n- PersonalWorkspaceId: uuid FK → PersonalWorkspaces\n- SharedWorkspaceId: uuid FK → SharedWorkspaces\n"),
  ("approvals",
   "\n## APPROVALS DOMAIN\n\n### Approvals\n- Id: uuid PK\n- Status: integer\n- Description: varchar(4096)\n- PersonId: uuid FK → People\n\n### ReviewRequests\n- Id: uuid PK\n- PersonId: uuid FK → People (requester)\n- TargetedDbEntityId: uuid\n- TargetedDbEntityTypeId: uuid FK\n\n### ReviewRequestPeople\n- Id: uuid PK\n- ReviewRequestId: uuid FK → ReviewRequests\n- PersonId: uuid FK → People\n")]

/-- `KEY_RELATIONSHIPS` (src/db/schema_registry.py). -/
def KEY_RELATIONSHIPS : String :=
  "\n## KEY JOIN PATHS\n\n### Budget Flow (most common):\nProjects → ProjectAccounts → EntryLines\nProjects → ProjectAccounts → LegalEntityAccounts → Accounts → AccountCategories\n\n### Actual Spending:\nInvoices.AccountId → Accounts\nPurchaseOrders.AccountId → Accounts\n\n### Currency Conversion:\nEntryLines.LocalCurrencyId → Currencies\nCurrencies → CurrencyTuples → ConstantFxRates ← FinancialYears\n\n### User Context:\nPeople → ProjectPeople → Projects\nPeople → AspNetUsers\nPeople → Companies\n\n### History:\nEntryLines triggers → EntryLine_H (automatic audit)\n"

/-- `QUERY_PATTERNS` (src/db/schema_registry.py). -/
def QUERY_PATTERNS : String :=
  "\n## COMMON SQL PATTERNS\n\n### Budget Total:\nSELECT SUM(el.\"Amount\" * el.\"Quantity\") FROM \"EntryLines\" el WHERE el.\"IsDisabled\" = false\n\n### Committed vs Budgeted:\nSUM(CASE WHEN el.\"Status\" >= 2 THEN el.\"Amount\" * el.\"Quantity\" ELSE 0 END) as committed\n\n### Join to Categories:\nJOIN \"LegalEntityAccounts\" lea ON lea.\"Id\" = pa.\"LegalEntityAccountId\"\nJOIN \"Accounts\" a ON a.\"Id\" = lea.\"AccountId\"\nJOIN \"AccountCategories\" ac ON ac.\"Id\" = a.\"SubAccountCategoryId\"\n\n### Exclude Scenarios:\nWHERE p.\"OriginalProjectId\" IS NULL\n\n### Always Filter:\nWHERE [table].\"IsDisabled\" = false\n"

/-- `SchemaContext` (src/db/schema_registry.py). -/
structure SchemaContext where
  db_summary : String
  selected_domains : List String
  table_schemas : String
  relationships : String
  query_patterns : String
deriving Repr, DecidableEq

/-- `SchemaContext.full_context`. -/
def SchemaContext.full_context (c : SchemaContext) : String :=
  c.db_summary ++ "\n\n" ++ c.table_schemas ++ "\n\n" ++ c.relationships ++
    "\n\n" ++ c.query_patterns

/-- `SchemaContext.token_estimate` (`len(full_context) // 4`). -/
def SchemaContext.token_estimate (c : SchemaContext) : Nat :=
  c.full_context.length / 4

/-- `get_db_summary`. -/
def get_db_summary : String := DATABASE_SUMMARY

/-- `get_all_domains` (`list(DOMAIN_TABLES.keys())`). -/
def get_all_domains : List String := DOMAIN_TABLES.map (·.1)

/-- `get_domain_schema` (`DOMAIN_SCHEMAS.get(domain.lower(), "")`). -/
def get_domain_schema (domain : String) : String :=
  (DOMAIN_SCHEMAS.lookup (pyLower domain)).getD ""

/-- The `schemas` list built by `get_schemas_for_domains`: the non-empty
schemas of the given domains, in input order. -/
def domainSchemasList (domains : List String) : List String :=
  domains.filterMap fun d =>
    let schema := get_domain_schema (pyLower d)
    if schema == "" then none else some schema

/-- `get_schemas_for_domains`: collect the non-empty schemas of the given
domains, in input order, joined with a newline. -/
def get_schemas_for_domains (domains : List String) : String :=
  String.intercalate "\n" (domainSchemasList domains)

/-- `build_schema_context`. -/
def build_schema_context (domains : List String) : SchemaContext :=
  { db_summary := DATABASE_SUMMARY
    selected_domains := domains
    table_schemas := get_schemas_for_domains domains
    relationships := KEY_RELATIONSHIPS
    query_patterns := QUERY_PATTERNS }

/-! ## Database tools (src/mcp/tools.py) -/

/-- A database result row (`dict[str, Any]`): column name ↦ rendered value.
The payload is opaque to the orchestrator. -/
abbrev Row := List (String × String)

/-- Python `str(x)` of an `Optional[str]` as interpolated by an f-string. -/
def pyStrOpt : Option String → String
  | some s => s
  | none => "None"

/-- The `metadata` dictionaries attached by `DatabaseTools.execute_query`. -/
inductive ToolMeta where
  | validation_error
  | query_result
deriving Repr, DecidableEq

/-- `ToolResponse` (src/mcp/tools.py), restricted to the fields
`execute_query` populates. -/
structure ToolResponse where
  success : Bool
  data : Option (List Row) := none
  error : Option String := none
  row_count : Nat := 0
  metadata : Option ToolMeta := none
deriving Repr, DecidableEq

/-- `DatabaseTools.execute_query`. The `sqlglot` parse used by the validator
and the database session are oracles (`parse`, `db`). The second component of
the result is the SQL text passed to `session.execute`, or `none` when the
session was never touched (validation rejected the query before execution). -/
def DatabaseTools.execute_query (sql : String) (limit : Nat)
    (parse : Except String (List (Option String))) (db : Except String (List Row)) :
    ToolResponse × Option String :=
  let v := SQLValidator.validate sql parse
  if !v.1 then
    ({ success := false
       error := some ("SQL validation failed: " ++ pyStrOpt v.2)
       metadata := some .validation_error }, none)
  else
    let sqlWithLimit := SQLValidator.add_limit_if_missing sql limit
    match db with
    | Except.ok rows =>
      ({ success := true
         data := some rows
         row_count := rows.length
         metadata := some .query_result }, some sqlWithLimit)
    | Except.error e =>
      ({ success := false
         error := some ("Query execution failed: " ++ e) }, some sqlWithLimit)

/-! ## Analysis synthesizer (src/dspy_modules/analyzer.py) -/

/-- The `confidence` attribute of the prediction returned by the underlying
`synthesize` adapter call, as a Python value: a number, a string (paired with
the oracle outcome of `float()` on it), `None`, or any other object. -/
inductive PyConf where
  | num (q : ℚ)
  | str (parsed : Option ℚ)
  | pyNone
  | other
deriving Repr, DecidableEq

/-- The raw prediction produced by the `synthesize` adapter call. -/
structure AnalyzerRaw where
  analysis : String
  recommendations : String
  confidence : PyConf
deriving Repr, DecidableEq

/-- `AnalysisSynthesizer.forward`: coerce a string confidence with `float()`
(defaulting to `0.7` when parsing fails), clamp into `[0.0, 1.0]` with
`max(0.0, min(1.0, confidence))`, and return the prediction. A `None` or
non-numeric non-string confidence makes the clamp raise `TypeError`
(`Except.error`), as does a failure of the `synthesize` call itself (the
`synth` oracle). Real arithmetic is modelled over `ℚ`. The node passes at
most the first 50 rows to the adapter; that truncation only affects the
adapter's input, which the `synth` oracle already accounts for. -/
def AnalysisSynthesizer.forward (synth : Except String AnalyzerRaw) :
    Except String (String × String × ℚ) :=
  match synth with
  | Except.error e => Except.error e
  | Except.ok r =>
    match r.confidence with
    | PyConf.num q => Except.ok (r.analysis, r.recommendations, max 0 (min 1 q))
    | PyConf.str (some q) => Except.ok (r.analysis, r.recommendations, max 0 (min 1 q))
    | PyConf.str none => Except.ok (r.analysis, r.recommendations, max 0 (min 1 (0.7 : ℚ)))
    | PyConf.pyNone => Except.error "TypeError: bad operand type for min()"
    | PyConf.other => Except.error "TypeError: bad operand type for min()"

/-! ## Agent state (src/agent/state.py) -/

/-- `Message` (src/agent/state.py); the `metadata` slot is opaque. -/
structure Message where
  role : String
  content : String
  timestamp : Option String := none
deriving Repr, DecidableEq

/-- `AgentState` (src/agent/state.py). `confidence` is modelled over `ℚ`. -/
structure AgentState where
  messages : List Message
  user_id : String
  session_id : String
  email : Option String
  person_id : Option String
  company_id : Option String
  intent : String
  requires_db_query : Bool
  clarification_needed : Bool
  clarification_questions : Option String
  selected_domains : Option (List String)
  schema_context : Option String
  domain_selection_reasoning : Option String
  generated_sql : Option String
  sql_explanation : Option String
  sql_validation_error : Option String
  sql_retry_count : Nat
  query_results : Option (List Row)
  query_row_count : Nat
  query_error : Option String
  analysis : Option String
  recommendations : Option String
  confidence : ℚ
  response : Option String
  error : Option String
  error_type : Option String
  processing_started : Option String
  processing_completed : Option String
  total_llm_calls : Nat
  total_db_queries : Nat
deriving Repr, DecidableEq

/-- Python truthiness of an `Optional[str]`. -/
def pyTruthy : Option String → Bool
  | none => false
  | some s => s != ""

/-- Python truthiness of an `Optional[list]`. -/
def pyTruthyRows : Option (List Row) → Bool
  | none => false
  | some rows => !rows.isEmpty

/-- `create_initial_state` (src/agent/state.py). The `uuid4` fallback for a
missing session id and the `utcnow` timestamp are oracle arguments. -/
def create_initial_state (user_message user_id session_id : String)
    (email person_id company_id : Option String)
    (conversation_history : List Message) (timestamp : String) : AgentState :=
  { messages := conversation_history ++
      [{ role := "user", content := user_message, timestamp := some timestamp }]
    user_id := user_id
    session_id := session_id
    email := email
    person_id := person_id
    company_id := company_id
    intent := ""
    requires_db_query := false
    clarification_needed := false
    clarification_questions := none
    selected_domains := none
    schema_context := none
    domain_selection_reasoning := none
    generated_sql := none
    sql_explanation := none
    sql_validation_error := none
    sql_retry_count := 0
    query_results := none
    query_row_count := 0
    query_error := none
    analysis := none
    recommendations := none
    confidence := 0.0
    response := none
    error := none
    error_type := none
    processing_started := some timestamp
    processing_completed := none
    total_llm_calls := 0
    total_db_queries := 0 }

/-- `add_assistant_message` (src/agent/state.py): the assistant `Message`
appended to the state's message list (`utcnow` is the `now` oracle). -/
def add_assistant_message (content now : String) : Message :=
  { role := "assistant", content := content, timestamp := some now }

/-! ## Routing (src/agent/routing.py) -/

/-- The LangGraph nodes of the workflow (src/agent/graph.py), plus `END`. -/
inductive Node where
  | classify_intent
  | select_tables
  | generate_sql
  | validate_sql
  | execute_query
  | analyze_results
  | format_response
  | handle_clarification
  | handle_general_info
  | handle_error
  | END
deriving Repr, DecidableEq

/-- `MAX_SQL_RETRIES` (src/agent/routing.py). -/
def MAX_SQL_RETRIES : Nat := 3

/-- `route_after_classification`. -/
def route_after_classification (s : AgentState) : Node :=
  if s.intent == "clarify" || s.clarification_needed then
    Node.handle_clarification
  else if s.intent == "general_info" && !s.requires_db_query then
    Node.handle_general_info
  else
    Node.select_tables

/-- `route_after_sql_validation`. -/
def route_after_sql_validation (s : AgentState) : Node :=
  if !pyTruthy s.sql_validation_error then
    Node.execute_query
  else if s.sql_retry_count < MAX_SQL_RETRIES then
    Node.generate_sql
  else
    Node.handle_error

/-- `route_after_query_execution`. -/
def route_after_query_execution (s : AgentState) : Node :=
  if !pyTruthy s.query_error then
    Node.analyze_results
  else if s.sql_retry_count < MAX_SQL_RETRIES then
    Node.generate_sql
  else
    Node.handle_error

/-! ## Node functions (src/agent/nodes.py)

Each node returns a partial state update that LangGraph merges into the
running state; the functions below apply that merge directly. Each LLM or
database interaction is an oracle argument (`Except.error e` models the
adapter raising an exception with message `e`). -/

/-- Outcome of the `IntentClassifier` adapter call. -/
structure ClassifierResult where
  intent : String
  requires_db_query : Bool
  clarification_needed : Bool
  clarification_questions : Option String
deriving Repr, DecidableEq

/-- `classify_intent_node`: on success record the classification; on adapter
failure default to `db_query` and record a soft error. -/
def classify_intent_node (s : AgentState) (o : Except String ClassifierResult) : AgentState :=
  match o with
  | Except.ok r =>
    { s with intent := r.intent
             requires_db_query := r.requires_db_query
             clarification_needed := r.clarification_needed
             clarification_questions := r.clarification_questions
             total_llm_calls := s.total_llm_calls + 1 }
  | Except.error e =>
    { s with intent := "db_query"
             requires_db_query := true
             clarification_needed := false
             error := some ("Intent classification failed: " ++ e) }

/-- Outcome of the `TableSelector` adapter call. -/
structure SelectorResult where
  selected_domains : List String
  reasoning : String
deriving Repr, DecidableEq

/-- `select_tables_node`: on success build the schema context for the
selected domains; on adapter failure fall back to the base domains. -/
def select_tables_node (s : AgentState) (o : Except String SelectorResult) : AgentState :=
  match o with
  | Except.ok r =>
    { s with selected_domains := some r.selected_domains
             schema_context := some (build_schema_context r.selected_domains).full_context
             domain_selection_reasoning := some r.reasoning
             total_llm_calls := s.total_llm_calls + 1 }
  | Except.error _ =>
    { s with selected_domains := some ["projects", "budgets"]
             schema_context := some (build_schema_context ["projects", "budgets"]).full_context
             domain_selection_reasoning := some "Fallback to base domains due to error" }

/-- Outcome of the `SQLGenerator` adapter call. -/
structure GeneratorResult where
  sql_query : String
  explanation : String
deriving Repr, DecidableEq

/-- `generate_sql_node`. The choice between fresh generation and refinement,
and the minimal-context fallback when `schema_context` is empty, only shape
the adapter's input, which the oracle accounts for. On success the previous
validation error is cleared; on adapter failure a hard `sql_generation`
error is recorded (and the validation error is left as is). -/
def generate_sql_node (s : AgentState) (o : Except String GeneratorResult) : AgentState :=
  match o with
  | Except.ok r =>
    { s with generated_sql := some r.sql_query
             sql_explanation := some r.explanation
             sql_validation_error := none
             total_llm_calls := s.total_llm_calls + 1 }
  | Except.error e =>
    { s with error := some ("SQL generation failed: " ++ e)
             error_type := some "sql_generation" }

/-- `validate_sql_node`: validate the generated SQL (the `sqlglot` parse is
the oracle); on failure record the error and increment the retry counter. -/
def validate_sql_node (s : AgentState)
    (parse : Except String (List (Option String))) : AgentState :=
  if !pyTruthy s.generated_sql then
    { s with sql_validation_error := some "No SQL query generated"
             sql_retry_count := s.sql_retry_count + 1 }
  else
    let v := SQLValidator.validate (s.generated_sql.getD "") parse
    if v.1 then
      { s with sql_validation_error := none }
    else
      { s with sql_validation_error := v.2
               sql_retry_count := s.sql_retry_count + 1 }

/-- Environment of one `execute_query_node` run: either a read-only session
is obtained and `DatabaseTools.execute_query` runs with the given parse/db
oracles, or acquiring the session (or any other surrounding code) raises. -/
inductive ExecOracle where
  | session (parse : Except String (List (Option String))) (db : Except String (List Row))
  | exn (e : String)

/-- `execute_query_node`: run the validated SQL through `DatabaseTools`.
A failed `ToolResponse` records the error as a validation error and
increments the retry counter; an exception from the surrounding session
handling records `query_error` and a hard `query_execution` error without
touching the counter. -/
def execute_query_node (s : AgentState) (o : ExecOracle) : AgentState :=
  if !pyTruthy s.generated_sql then
    { s with query_error := some "No SQL query to execute" }
  else
    match o with
    | ExecOracle.session parse db =>
      let result := (DatabaseTools.execute_query (s.generated_sql.getD "") 1000 parse db).1
      if result.success then
        { s with query_results := result.data
                 query_row_count := result.row_count
                 query_error := none
                 total_db_queries := s.total_db_queries + 1 }
      else
        { s with query_error := result.error
                 sql_validation_error := result.error
                 sql_retry_count := s.sql_retry_count + 1 }
    | ExecOracle.exn e =>
      { s with query_error := some e
               error := some ("Database query failed: " ++ e)
               error_type := some "query_execution" }

/-- The fixed no-data analysis text of `analyze_results_node`. -/
def noDataAnalysis : String := "No data was returned from the query."

/-- The fixed no-data recommendations text of `analyze_results_node`. -/
def noDataRecommendations : String :=
  "Try rephrasing your question or specifying a different time period or project."

/-- `analyze_results_node`: with no query results, short-circuit to the fixed
no-data response without calling the analyzer; otherwise run
`AnalysisSynthesizer.forward` (whose `synthesize` call is the oracle). -/
def analyze_results_node (s : AgentState) (o : Except String AnalyzerRaw) : AgentState :=
  if !pyTruthyRows s.query_results then
    { s with analysis := some noDataAnalysis
             recommendations := some noDataRecommendations
             confidence := 0.3 }
  else
    match AnalysisSynthesizer.forward o with
    | Except.ok (a, r, c) =>
      { s with analysis := some a
               recommendations := some r
               confidence := c
               total_llm_calls := s.total_llm_calls + 1 }
    | Except.error e =>
      { s with error := some ("Analysis failed: " ++ e)
               error_type := some "analysis" }

/-- The low-confidence note appended by `format_response_node`, with Python's
`f"{confidence:.0%}"` modelled as round-to-nearest on the exact rational. -/
def confidenceNote (confidence : ℚ) : String :=
  "\n\n*Note: Confidence level is " ++ toString (round (confidence * 100)) ++
    "%. Results may be incomplete or require verification.*"

/-- `format_response_node`: join analysis, recommendations and (below the
0.7 threshold) the confidence note, and append the assistant message.
`utcnow` is the `now` oracle. -/
def format_response_node (s : AgentState) (now : String) : AgentState :=
  let parts :=
    (if pyTruthy s.analysis then [s.analysis.getD ""] else []) ++
    (if pyTruthy s.recommendations then
      ["\n### Recommendations\n", s.recommendations.getD ""] else []) ++
    (if s.confidence < 0.7 then [confidenceNote s.confidence] else [])
  let response := String.intercalate "\n" parts
  { s with response := some response
           processing_completed := some now
           messages := s.messages ++ [add_assistant_message response now] }

/-- `handle_clarification_node`. -/
def handle_clarification_node (s : AgentState) (now : String) : AgentState :=
  let questions :=
    if pyTruthy s.clarification_questions then s.clarification_questions.getD ""
    else "Could you please provide more details about what you'd like to know?"
  let response := "I need a bit more information to help you:\n\n" ++ questions
  { s with response := some response
           processing_completed := some now
           messages := s.messages ++ [add_assistant_message response now] }

/-- Split off the part of `l` before the first occurrence of `sep` and the
part after it (`none` when `sep` does not occur): the pieces of Python's
`split(sep)` that `handle_general_info_node` uses, for a separator occurring
at most once (true of `DATABASE_SUMMARY`). -/
def breakFirst (sep : List Char) : List Char → Option (List Char × List Char)
  | [] => none
  | c :: rest =>
    if sep.isPrefixOf (c :: rest) then some ([], (c :: rest).drop sep.length)
    else
      match breakFirst sep rest with
      | some (pre, post) => some (c :: pre, post)
      | none => none

/-- `handle_general_info_node`: static capability text with the domain list
extracted from the database summary
(`db_summary.split('DOMAINS:')[1].split('KEY FACTS')[0].strip()`). -/
def handle_general_info_node (s : AgentState) (now : String) : AgentState :=
  let db_summary := get_db_summary
  let domainsPart :=
    match breakFirst "DOMAINS:".data db_summary.data with
    | some (_, post) =>
      (⟨(match breakFirst "KEY FACTS".data (pyStripList post) with
         | some (pre, _) => pyStripList pre
         | none => pyStripList post)⟩ : String)
    | none => "- Projects, Budgets, Accounts, Invoices, and more"
  let response :=
    "I can help you with budget analysis for your Procast events. Here's what I can do:\n\n" ++
    "**Budget Analysis:**\n- View project budget summaries\n" ++
    "- Identify overspending or at-risk budgets\n- Analyze spending by category\n" ++
    "- Track budget changes over time\n- Compare budgets vs actuals (invoices/POs)\n\n" ++
    "**Available Data Domains:**\n" ++ domainsPart ++
    "\n\nPlease ask a specific question about your budget data, and I'll query the database to provide insights."
  { s with response := some response
           processing_completed := some now
           messages := s.messages ++ [add_assistant_message response now] }

/-- Python `str()` of the first rows, as interpolated by `handle_error_node`
for analysis errors (cell payloads are opaque strings). -/
def pyStrRows (rows : List Row) : String :=
  "[" ++ String.intercalate ", " (rows.map fun r =>
    "\x7b" ++ String.intercalate ", " (r.map fun kv =>
      "'" ++ kv.1 ++ "': " ++ kv.2) ++ "\x7d") ++ "]"

/-- `handle_error_node`: category-specific user-facing error response. -/
def handle_error_node (s : AgentState) (now : String) : AgentState :=
  let response :=
    if s.error_type == some "sql_generation" then
      "I had trouble understanding how to query the database for your request. Could you try rephrasing your question?"
    else if s.error_type == some "query_execution" then
      "There was an issue executing the database query. This might be due to a temporary issue. Please try again."
    else if s.error_type == some "analysis" then
      "I was able to get the data but had trouble analyzing it. Here's what I found:\n\n" ++
        pyStrRows ((s.query_results.getD []).take 5)
    else
      "I encountered an issue: " ++ pyStrOpt s.error ++
        "\n\nPlease try again or rephrase your question."
  { s with response := some response
           processing_completed := some now
           messages := s.messages ++ [add_assistant_message response now] }

/-! ## The workflow graph (src/agent/graph.py) -/

/-- One LangGraph transition of the compiled workflow: run the node the
cursor is on (with that run's oracle outcomes) and follow the unconditional
edge or the conditional-edge router to the next node. -/
inductive Step : Node × AgentState → Node × AgentState → Prop where
  | classify (s : AgentState) (o : Except String ClassifierResult) :
      Step (Node.classify_intent, s)
        (route_after_classification (classify_intent_node s o), classify_intent_node s o)
  | select (s : AgentState) (o : Except String SelectorResult) :
      Step (Node.select_tables, s) (Node.generate_sql, select_tables_node s o)
  | generate (s : AgentState) (o : Except String GeneratorResult) :
      Step (Node.generate_sql, s) (Node.validate_sql, generate_sql_node s o)
  | validate (s : AgentState) (parse : Except String (List (Option String))) :
      Step (Node.validate_sql, s)
        (route_after_sql_validation (validate_sql_node s parse), validate_sql_node s parse)
  | execute (s : AgentState) (o : ExecOracle) :
      Step (Node.execute_query, s)
        (route_after_query_execution (execute_query_node s o), execute_query_node s o)
  | analyze (s : AgentState) (o : Except String AnalyzerRaw) :
      Step (Node.analyze_results, s) (Node.format_response, analyze_results_node s o)
  | format (s : AgentState) (now : String) :
      Step (Node.format_response, s) (Node.END, format_response_node s now)
  | clarification (s : AgentState) (now : String) :
      Step (Node.handle_clarification, s) (Node.END, handle_clarification_node s now)
  | general (s : AgentState) (now : String) :
      Step (Node.handle_general_info, s) (Node.END, handle_general_info_node s now)
  | error (s : AgentState) (now : String) :
      Step (Node.handle_error, s) (Node.END, handle_error_node s now)

/-- Configurations reachable by a turn: start at `classify_intent` on an
initial state (as built by `ProcastAgent.query`) and take workflow steps. -/
inductive Reachable : Node × AgentState → Prop where
  | init (question user_id session_id timestamp : String)
      (email person_id company_id : Option String) (history : List Message) :
      Reachable (Node.classify_intent,
        create_initial_state question user_id session_id email person_id company_id
          history timestamp)
  | step {a b : Node × AgentState} : Reachable a → Step a b → Reachable b

/-! ## `ProcastAgent.query` result (src/agent/graph.py) -/

/-- The structured response assembled by `ProcastAgent.query` from the final
graph state. -/
structure TurnResult where
  response : String
  analysis : Option String
  recommendations : Option String
  confidence : ℚ
  data : Option (List Row)
  row_count : Nat
  sql_query : Option String
  sql_explanation : Option String
  session_id : String
  error : Option String
  intent : String
  selected_domains : Option (List String)
  domain_selection_reasoning : Option String
  total_llm_calls : Nat
  total_db_queries : Nat
  processing_started : Option String
  processing_completed : Option String
deriving Repr, DecidableEq

/-- The dictionary returned by `ProcastAgent.query`, as a function of the
final graph state. -/
def ProcastAgent.queryResult (s : AgentState) : TurnResult :=
  { response := s.response.getD ""
    analysis := s.analysis
    recommendations := s.recommendations
    confidence := s.confidence
    data := s.query_results
    row_count := s.query_row_count
    sql_query := s.generated_sql
    sql_explanation := s.sql_explanation
    session_id := s.session_id
    error := s.error
    intent := s.intent
    selected_domains := s.selected_domains
    domain_selection_reasoning := s.domain_selection_reasoning
    total_llm_calls := s.total_llm_calls
    total_db_queries := s.total_db_queries
    processing_started := s.processing_started
    processing_completed := s.processing_completed }

/-! ## Sample states and traces

Concrete turn states used to exhibit workflow executions. -/

/-- The initial state of a sample turn (`ProcastAgent.query` with a data
question; uuid and timestamp oracles fixed). -/
def sampleInit : AgentState :=
  create_initial_state "What is the total budget for all projects?" "anonymous" "sid-1"
    none none none [] "2026-01-01T00:00:00"

/-- Sample turn, after a successful intent classification. -/
def execTrace1 : AgentState :=
  classify_intent_node sampleInit
    (Except.ok { intent := "db_query", requires_db_query := true,
                 clarification_needed := false, clarification_questions := none })

/-- Sample turn, after domain selection. -/
def execTrace2 : AgentState :=
  select_tables_node execTrace1
    (Except.ok { selected_domains := ["projects", "budgets"], reasoning := "budget question" })

/-- Sample turn, after SQL generation. -/
def execTrace3 : AgentState :=
  generate_sql_node execTrace2
    (Except.ok { sql_query := "SELECT 1", explanation := "trivial query" })

/-- Sample turn, after successful SQL validation. -/
def execTrace4 : AgentState :=
  validate_sql_node execTrace3 (Except.ok [some "Select"])

/-- A second sample turn in which the intent classifier raises. -/
def degradedTrace1 : AgentState :=
  classify_intent_node sampleInit (Except.error "LLM down")

/-- Degraded turn, after the fallback routing to domain selection. -/
def degradedTrace2 : AgentState :=
  select_tables_node degradedTrace1
    (Except.ok { selected_domains := ["projects", "budgets"], reasoning := "budget question" })

/-- Degraded turn, after SQL generation. -/
def degradedTrace3 : AgentState :=
  generate_sql_node degradedTrace2
    (Except.ok { sql_query := "SELECT 1", explanation := "trivial query" })

/-- Degraded turn, after successful SQL validation. -/
def degradedTrace4 : AgentState :=
  validate_sql_node degradedTrace3 (Except.ok [some "Select"])

/-- Degraded turn, after successful query execution (one row). -/
def degradedTrace5 : AgentState :=
  execute_query_node degradedTrace4
    (ExecOracle.session (Except.ok [some "Select"]) (Except.ok [[("total", "500000")]]))

/-- Degraded turn, after a successful analysis. -/
def degradedTrace6 : AgentState :=
  analyze_results_node degradedTrace5
    (Except.ok { analysis := "The total budget is 500000.",
                 recommendations := "No action needed.",
                 confidence := PyConf.num 0.9 })

/-- Degraded turn, after response formatting (a terminal state). -/
def degradedTrace7 : AgentState :=
  format_response_node degradedTrace6 "2026-01-01T00:00:05"

/-! ## Scanning lemmas

Relations between the word-boundary scan, the substring scan, and padded
inputs, used to settle the validator claims. -/

lemma isPrefixOf_imp_containsSub (pat l : List Char) (h : pat.isPrefixOf l = true) :
    containsSub pat l = true := by
  cases l with
  | nil =>
    cases pat with
    | nil => rfl
    | cons p ps => simp [List.isPrefixOf] at h
  | cons c rest => simp [containsSub, h]

lemma containsSub_cons (pat : List Char) (c : Char) (l : List Char)
    (h : containsSub pat l = true) : containsSub pat (c :: l) = true := by
  simp [containsSub, h]

lemma containsSub_drop (k : Nat) (pat : List Char) :
    ∀ l : List Char, containsSub pat (l.drop k) = true → containsSub pat l = true := by
  induction k with
  | zero => simp
  | succ k ih =>
    intro l h
    cases l with
    | nil => simpa using h
    | cons c rest => exact containsSub_cons _ _ _ (ih rest (by simpa using h))

lemma containsSub_nil_pat (l : List Char) : containsSub [] l = true := by
  cases l with
  | nil => rfl
  | cons c rest => simp [containsSub, List.isPrefixOf]

lemma wordAt_imp_isPrefixOf (pat l : List Char) (h : wordAt pat l = true) :
    pat.isPrefixOf l = true := by
  simp only [wordAt, Bool.and_eq_true] at h
  exact h.1

lemma containsWordAux_imp_containsSub (pat : List Char) :
    ∀ (p : Bool) (l : List Char), containsWordAux pat p l = true → containsSub pat l = true := by
  intro p l
  induction l generalizing p with
  | nil => intro h; simp [containsWordAux] at h
  | cons c rest ih =>
    intro h
    simp only [containsWordAux, Bool.or_eq_true, Bool.and_eq_true] at h
    rcases h with ⟨-, hword⟩ | htail
    · exact isPrefixOf_imp_containsSub _ _ (wordAt_imp_isPrefixOf _ _ hword)
    · exact containsSub_cons _ _ _ (ih _ htail)

lemma intoSearch_imp_containsSub :
    ∀ (p : Bool) (l : List Char), intoSearch p l = true → containsSub "INTO".data l = true := by
  intro p l
  induction l generalizing p with
  | nil => intro h; simp [intoSearch] at h
  | cons c rest ih =>
    intro h
    simp only [intoSearch, Bool.or_eq_true, Bool.and_eq_true] at h
    rcases h with ⟨-, hword⟩ | ⟨-, htail⟩
    · exact isPrefixOf_imp_containsSub _ _ (wordAt_imp_isPrefixOf _ _ hword)
    · exact containsSub_cons _ _ _ (ih _ htail)

lemma selectIntoAux_imp_containsSub :
    ∀ (p : Bool) (l : List Char), selectIntoAux p l = true → containsSub "INTO".data l = true := by
  intro p l
  induction l generalizing p with
  | nil => intro h; simp [selectIntoAux] at h
  | cons c rest ih =>
    intro h
    simp only [selectIntoAux, Bool.or_eq_true, Bool.and_eq_true] at h
    rcases h with ⟨⟨-, -⟩, hinto⟩ | htail
    · exact containsSub_drop _ _ _ (intoSearch_imp_containsSub _ _ hinto)
    · exact containsSub_cons _ _ _ (ih _ htail)

lemma isPrefixOf_pad (pat : List Char) :
    ∀ (l : List Char) (c : Char) (m M : Nat), pat.length ≤ M →
      pat.isPrefixOf (l ++ List.replicate m c) = true →
      pat.isPrefixOf (l ++ List.replicate M c) = true := by
  induction pat with
  | nil => intro l c m M _ _; simp [List.isPrefixOf]
  | cons p ps ih =>
    intro l c m M hM h
    cases l with
    | nil =>
      simp only [List.nil_append] at h ⊢
      cases m with
      | zero => simp [List.isPrefixOf] at h
      | succ m =>
        rw [List.replicate_succ] at h
        simp only [List.isPrefixOf, Bool.and_eq_true] at h
        cases M with
        | zero => simp at hM
        | succ M =>
          rw [List.replicate_succ]
          simp only [List.isPrefixOf, Bool.and_eq_true]
          refine ⟨h.1, ?_⟩
          have := ih ([]) c m M (by simpa using Nat.le_of_succ_le_succ hM)
          simpa using this (by simpa using h.2)
    | cons x l' =>
      simp only [List.cons_append, List.isPrefixOf, Bool.and_eq_true] at h ⊢
      exact ⟨h.1, ih l' c m M (le_trans (Nat.le_succ _) hM) h.2⟩

lemma containsSub_rep_pad (pat : List Char) (c : Char) :
    ∀ (m M : Nat), pat.length ≤ M →
      containsSub pat (List.replicate m c) = true →
      containsSub pat (List.replicate M c) = true := by
  intro m M hM h
  induction m with
  | zero =>
    simp [containsSub, List.isEmpty_iff] at h
    subst h
    exact containsSub_nil_pat _
  | succ m ih =>
    rw [List.replicate_succ] at h
    simp only [containsSub, Bool.or_eq_true] at h
    rcases h with h | h
    · rw [← List.replicate_succ] at h
      have := isPrefixOf_pad pat [] c (m + 1) M hM (by simpa using h)
      exact isPrefixOf_imp_containsSub _ _ (by simpa using this)
    · exact ih h

lemma containsSub_pad (pat : List Char) (c : Char) (M : Nat) (hM : pat.length ≤ M) :
    ∀ (l : List Char) (m : Nat),
      containsSub pat (l ++ List.replicate m c) = true →
      containsSub pat (l ++ List.replicate M c) = true := by
  intro l
  induction l with
  | nil =>
    intro m h
    simpa using containsSub_rep_pad pat c m M hM (by simpa using h)
  | cons x l' ih =>
    intro m h
    simp only [List.cons_append, containsSub, Bool.or_eq_true] at h ⊢
    rcases h with h | h
    · exact Or.inl (by simpa using isPrefixOf_pad pat (x :: l') c m M hM (by simpa using h))
    · exact Or.inr (ih m h)

lemma pyStripList_eq_nil_all_space (l : List Char) (h : pyStripList l = []) :
    ∀ x ∈ l, isPySpace x = true := by
  unfold pyStripList at h
  rw [List.reverse_eq_nil_iff, List.dropWhile_eq_nil_iff] at h
  have hdrop : ∀ x ∈ l.dropWhile isPySpace, isPySpace x = true := fun x hx =>
    h x (List.mem_reverse.2 hx)
  intro x hx
  rw [← List.takeWhile_append_dropWhile isPySpace l] at hx
  rcases List.mem_append.1 hx with h1 | h2
  · exact List.mem_takeWhile_imp h1
  · exact hdrop x h2

/-! ## Validator lemmas -/

lemma append_ne_empty_left (a b : String) (ha : a.data ≠ []) : a ++ b ≠ "" := by
  intro h
  have h2 : a.data ++ b.data = [] := by
    have := String.ext_iff.1 h
    rwa [String.data_append] at this
  exact ha (List.append_eq_nil.1 h2).1

namespace SQLValidator

lemma validateStmts_false_reason (sql up : String) :
    ∀ stmts, (validateStmts sql up stmts).1 = false →
      ∃ r, (validateStmts sql up stmts).2 = some r ∧ r ≠ "" := by
  intro stmts
  induction stmts with
  | nil => intro h; simp [validateStmts] at h
  | cons st rest ih =>
    cases st with
    | none => simpa [validateStmts] using ih
    | some t =>
      intro h
      by_cases ht : allowedStmtTypes.contains t
      · simp only [validateStmts, ht, if_true] at h ⊢
        cases hk : keywordHit up with
        | some k =>
          simp only [hk]
          exact ⟨_, rfl, append_ne_empty_left _ _ (by decide)⟩
        | none =>
          simp only [hk] at h ⊢
          cases hf : functionHit sql with
          | some f =>
            simp only [hf]
            exact ⟨_, rfl, append_ne_empty_left _ _ (by decide)⟩
          | none =>
            simp only [hf] at h ⊢
            exact ih h
      · simp only [validateStmts, ht, if_false]
        exact ⟨_, rfl, append_ne_empty_left _ _ (by decide)⟩

lemma validate_false_reason (sql : String) (parse : Except String (List (Option String)))
    (h : (validate sql parse).1 = false) :
    ∃ r, (validate sql parse).2 = some r ∧ r ≠ "" := by
  unfold validate at h ⊢
  by_cases h1 : (sql.data.isEmpty || (pyStrip sql).data.isEmpty) = true
  · simp only [h1, if_true]
    exact ⟨_, rfl, by decide⟩
  · simp only [Bool.not_eq_true] at h1
    simp only [h1, Bool.false_eq_true, if_false] at h ⊢
    by_cases h2 : selectIntoMatch (pyUpper sql) = true
    · simp only [h2, if_true]
      exact ⟨_, rfl, by decide⟩
    · simp only [Bool.not_eq_true] at h2
      simp only [h2, Bool.false_eq_true, if_false] at h ⊢
      match parse with
      | Except.error e => exact ⟨_, rfl, append_ne_empty_left _ _ (by decide)⟩
      | Except.ok [] => exact ⟨_, rfl, by decide⟩
      | Except.ok (st :: rest) => exact validateStmts_false_reason _ _ _ h

lemma keywordHit_ne_none (up kw : String) (hmem : kw ∈ FORBIDDEN_KEYWORDS)
    (hne : kw ≠ "INTO") (hw : containsWord kw up = true) : keywordHit up ≠ none := by
  have : (FORBIDDEN_KEYWORDS.find? fun k => k != "INTO" && containsWord k up).isSome := by
    refine List.find?_isSome.2 ⟨kw, hmem, ?_⟩
    simp [hw, bne_iff_ne, hne]
  exact Option.isSome_iff_ne_none.1 this

lemma functionHit_ne_none (sql fn : String) (hmem : fn ∈ FORBIDDEN_FUNCTIONS)
    (hf : containsSub (pyLower fn).data (pyLower sql).data = true) :
    functionHit sql ≠ none := by
  have : (FORBIDDEN_FUNCTIONS.find? fun f =>
      containsSub (pyLower f).data (pyLower sql).data).isSome :=
    List.find?_isSome.2 ⟨fn, hmem, hf⟩
  exact Option.isSome_iff_ne_none.1 this

lemma validateStmts_hit (sql up : String)
    (hhit : keywordHit up ≠ none ∨ functionHit sql ≠ none) :
    ∀ stmts, (∃ st ∈ stmts, st ≠ none) → (validateStmts sql up stmts).1 = false := by
  intro stmts
  induction stmts with
  | nil => rintro ⟨st, hst, -⟩; simp at hst
  | cons st rest ih =>
    rintro ⟨st', hst', hne⟩
    rcases List.mem_cons.1 hst' with rfl | hmem
    · cases st' with
      | none => exact absurd rfl hne
      | some t =>
        by_cases ht : allowedStmtTypes.contains t
        · simp only [validateStmts, ht, if_true]
          cases hk : keywordHit up with
          | some k => rfl
          | none =>
            cases hf : functionHit sql with
            | some f => rfl
            | none =>
              rcases hhit with h | h
              · exact absurd hk h
              · exact absurd hf h
        · simp only [validateStmts]
          rw [if_neg ht]
    · cases st with
      | none => exact ih ⟨st', hmem, hne⟩
      | some t =>
        by_cases ht : allowedStmtTypes.contains t
        · simp only [validateStmts, ht, if_true]
          cases hk : keywordHit up with
          | some k => rfl
          | none =>
            cases hf : functionHit sql with
            | some f => rfl
            | none => exact ih ⟨st', hmem, hne⟩
        · simp only [validateStmts]
          rw [if_neg ht]

end SQLValidator

/-! ## Claim C1 -/

/-- C1: any SQL string containing a denylisted keyword (the loop-checked
denylist, i.e. every forbidden keyword except `INTO`, which the dedicated
SELECT-INTO rule handles) as a whole word of its uppercased text, or a
denylisted function name as a substring of its lowercased text, is rejected
by `SQLValidator.validate` with a non-empty reason — whatever statement list
the parse produced, as long as it parsed to at least one statement (which
syntactically valid SELECT text does). -/
theorem C1_denylist_rejects (sql : String) (stmts : List (Option String))
    (hstmt : ∃ st ∈ stmts, st ≠ none)
    (hbad :
      (∃ kw ∈ SQLValidator.FORBIDDEN_KEYWORDS,
        kw ≠ "INTO" ∧ containsWord kw (pyUpper sql) = true) ∨
      (∃ fn ∈ SQLValidator.FORBIDDEN_FUNCTIONS,
        containsSub (pyLower fn).data (pyLower sql).data = true)) :
    (SQLValidator.validate sql (Except.ok stmts)).1 = false ∧
      ∃ r, (SQLValidator.validate sql (Except.ok stmts)).2 = some r ∧ r ≠ "" := by
  have hhit : SQLValidator.keywordHit (pyUpper sql) ≠ none ∨
      SQLValidator.functionHit sql ≠ none := by
    rcases hbad with ⟨kw, hmem, hne, hw⟩ | ⟨fn, hmem, hf⟩
    · exact Or.inl (SQLValidator.keywordHit_ne_none _ _ hmem hne hw)
    · exact Or.inr (SQLValidator.functionHit_ne_none _ _ hmem hf)
  have hfalse : (SQLValidator.validate sql (Except.ok stmts)).1 = false := by
    unfold SQLValidator.validate
    by_cases h1 : (sql.data.isEmpty || (pyStrip sql).data.isEmpty) = true
    · simp [h1]
    · simp only [Bool.not_eq_true] at h1
      simp only [h1, Bool.false_eq_true, if_false]
      by_cases h2 : selectIntoMatch (pyUpper sql) = true
      · simp [h2]
      · simp only [Bool.not_eq_true] at h2
        simp only [h2, Bool.false_eq_true, if_false]
        cases stmts with
        | nil => rcases hstmt with ⟨st, hst, -⟩; simp at hst
        | cons st rest => exact SQLValidator.validateStmts_hit _ _ hhit _ hstmt
  exact ⟨hfalse, SQLValidator.validate_false_reason _ _ hfalse⟩

/-- Witness for C1 at a denylisted keyword inside otherwise valid SELECT
text, and the evaluated rejection. -/
theorem C1_denylist_rejects_witness :
    (SQLValidator.validate "SELECT * FROM t WHERE note = 'DROP'"
        (Except.ok [some "Select"])).1 = false ∧
      ∃ r, (SQLValidator.validate "SELECT * FROM t WHERE note = 'DROP'"
        (Except.ok [some "Select"])).2 = some r ∧ r ≠ "" :=
  C1_denylist_rejects _ _ ⟨some "Select", by decide, by decide⟩
    (Or.inl ⟨"DROP", by decide, by decide, by decide⟩)

/-! ## Claim C4: behaviour of `validate` on arbitrarily long accepted input -/

lemma pyUpper_padded (m : Nat) :
    pyUpper ⟨"SELECT ".data ++ List.replicate m 'Q'⟩ =
      ⟨"SELECT ".data ++ List.replicate m 'Q'⟩ := by
  show (⟨("SELECT ".data ++ List.replicate m 'Q').map Char.toUpper⟩ : String) = _
  rw [List.map_append, List.map_replicate]
  have h1 : "SELECT ".data.map Char.toUpper = "SELECT ".data := by decide
  have h2 : Char.toUpper 'Q' = 'Q' := by decide
  rw [h1, h2]

lemma pyLower_padded (m : Nat) :
    pyLower ⟨"SELECT ".data ++ List.replicate m 'Q'⟩ =
      ⟨"select ".data ++ List.replicate m 'q'⟩ := by
  show (⟨("SELECT ".data ++ List.replicate m 'Q').map Char.toLower⟩ : String) = _
  rw [List.map_append, List.map_replicate]
  have h1 : "SELECT ".data.map Char.toLower = "select ".data := by decide
  have h2 : Char.toLower 'Q' = 'q' := by decide
  rw [h1, h2]

lemma no_keyword_padded (m : Nat) :
    SQLValidator.keywordHit ⟨"SELECT ".data ++ List.replicate m 'Q'⟩ = none := by
  rw [SQLValidator.keywordHit, List.find?_eq_none]
  intro kw hmem hcontra
  rw [Bool.and_eq_true] at hcontra
  have hw : containsWordAux kw.data false ("SELECT ".data ++ List.replicate m 'Q') = true :=
    hcontra.2
  have hsub : containsSub kw.data ("SELECT ".data ++ List.replicate m 'Q') = true :=
    containsWordAux_imp_containsSub _ _ _ hw
  have hlen : kw.data.length ≤ 9 := by
    have hall : ∀ k ∈ SQLValidator.FORBIDDEN_KEYWORDS, k.data.length ≤ 9 := by decide
    exact hall kw hmem
  have h9 : containsSub kw.data ("SELECT ".data ++ List.replicate 9 'Q') = true :=
    containsSub_pad _ _ 9 hlen _ _ hsub
  have hnone : ∀ k ∈ SQLValidator.FORBIDDEN_KEYWORDS,
      containsSub k.data ("SELECT ".data ++ List.replicate 9 'Q') = false := by decide
  rw [hnone kw hmem] at h9
  exact Bool.false_ne_true h9

lemma no_function_padded (m : Nat) :
    SQLValidator.functionHit ⟨"SELECT ".data ++ List.replicate m 'Q'⟩ = none := by
  rw [SQLValidator.functionHit, List.find?_eq_none]
  intro fn hmem hcontra
  rw [pyLower_padded] at hcontra
  have hsub : containsSub (pyLower fn).data ("select ".data ++ List.replicate m 'q') = true :=
    hcontra
  have hlen : (pyLower fn).data.length ≤ 20 := by
    have hall : ∀ f ∈ SQLValidator.FORBIDDEN_FUNCTIONS, (pyLower f).data.length ≤ 20 := by
      decide
    exact hall fn hmem
  have h20 : containsSub (pyLower fn).data ("select ".data ++ List.replicate 20 'q') = true :=
    containsSub_pad _ _ 20 hlen _ _ hsub
  have hnone : ∀ f ∈ SQLValidator.FORBIDDEN_FUNCTIONS,
      containsSub (pyLower f).data ("select ".data ++ List.replicate 20 'q') = false := by
    decide
  rw [hnone fn hmem] at h20
  exact Bool.false_ne_true h20

lemma no_selectInto_padded (m : Nat) :
    selectIntoMatch ⟨"SELECT ".data ++ List.replicate m 'Q'⟩ = false := by
  cases h : selectIntoMatch ⟨"SELECT ".data ++ List.replicate m 'Q'⟩ with
  | false => rfl
  | true =>
    exfalso
    have hsub : containsSub "INTO".data ("SELECT ".data ++ List.replicate m 'Q') = true :=
      selectIntoAux_imp_containsSub _ _ h
    have h4 : containsSub "INTO".data ("SELECT ".data ++ List.replicate 4 'Q') = true :=
      containsSub_pad _ _ 4 (by decide) _ _ hsub
    have : containsSub "INTO".data ("SELECT ".data ++ List.replicate 4 'Q') = false := by
      decide
    rw [this] at h4
    exact Bool.false_ne_true h4

lemma strip_padded_nonempty (m : Nat) :
    (pyStrip ⟨"SELECT ".data ++ List.replicate m 'Q'⟩).data.isEmpty = false := by
  show (pyStripList ("SELECT ".data ++ List.replicate m 'Q')).isEmpty = false
  cases hemp : (pyStripList ("SELECT ".data ++ List.replicate m 'Q')).isEmpty with
  | false => rfl
  | true =>
    exfalso
    have hnil := List.isEmpty_iff.1 hemp
    have hS : 'S' ∈ "SELECT ".data ++ List.replicate m 'Q' :=
      List.mem_append.2 (Or.inl (by decide))
    have := pyStripList_eq_nil_all_space _ hnil 'S' hS
    exact absurd this (by decide)

lemma validate_padded (m : Nat) :
    SQLValidator.validate ⟨"SELECT ".data ++ List.replicate m 'Q'⟩
      (Except.ok [some "Select"]) = (true, none) := by
  unfold SQLValidator.validate
  have h1 : (⟨"SELECT ".data ++ List.replicate m 'Q'⟩ : String).data.isEmpty = false := by
    show ("SELECT ".data ++ List.replicate m 'Q').isEmpty = false
    have hS : "SELECT ".data = 'S' :: "ELECT ".data := rfl
    rw [hS, List.cons_append]
    rfl
  simp only [h1, strip_padded_nonempty m, Bool.or_self, Bool.false_eq_true, if_false,
    pyUpper_padded m, no_selectInto_padded m]
  simp only [SQLValidator.validateStmts, no_keyword_padded m, no_function_padded m]
  rw [if_pos (show SQLValidator.allowedStmtTypes.contains "Select" = true by decide)]

/-- C4 counterexample: there is no maximum length beyond which `validate`
rejects — for every candidate bound `N` the string `"SELECT "` followed by
`N + 1` copies of `'Q'` is longer than `N` and accepted. -/
theorem C4_no_length_cap_cex :
    ¬ ∃ N : Nat, ∀ (sql : String) (parse : Except String (List (Option String))),
        N < sql.length → (SQLValidator.validate sql parse).1 = false := by
  rintro ⟨N, h⟩
  have hlen : N < (⟨"SELECT ".data ++ List.replicate (N + 1) 'Q'⟩ : String).length := by
    show N < ("SELECT ".data ++ List.replicate (N + 1) 'Q').length
    rw [List.length_append, List.length_replicate]
    omega
  have hres := h _ (Except.ok [some "Select"]) hlen
  rw [validate_padded] at hres
  exact Bool.false_ne_true hres.symm

/-- C4 amended: `validate` has no length rule at all — its ordered rule set
goes straight from the emptiness check to the SELECT-INTO/parse checks, so
for every bound there are accepted inputs longer than the bound. -/
theorem C4_no_length_cap_amended :
    ∀ N : Nat, ∃ (sql : String) (parse : Except String (List (Option String))),
      N < sql.length ∧ SQLValidator.validate sql parse = (true, none) := by
  intro N
  refine ⟨⟨"SELECT ".data ++ List.replicate (N + 1) 'Q'⟩, Except.ok [some "Select"],
    ?_, validate_padded _⟩
  show N < ("SELECT ".data ++ List.replicate (N + 1) 'Q').length
  rw [List.length_append, List.length_replicate]
  omega

/-! ## Claim C5: schema-context rendering -/

lemma full_context_build (domains : List String) :
    (build_schema_context domains).full_context =
      DATABASE_SUMMARY ++ "\n\n" ++ get_schemas_for_domains domains ++ "\n\n" ++
        KEY_RELATIONSHIPS ++ "\n\n" ++ QUERY_PATTERNS := rfl

/-- C5 counterexample: the two orders of the same two-domain set render to
different `full_context` texts — concatenation follows the input order, not a
fixed stable domain ordering (the two texts differ where one puts the
`PROJECTS` schema and the other the `BUDGETS` schema). -/
theorem C5_order_dependence_cex :
    (["projects", "budgets"] : List String).Perm ["budgets", "projects"] ∧
      (build_schema_context ["projects", "budgets"]).full_context ≠
        (build_schema_context ["budgets", "projects"]).full_context := by
  refine ⟨by decide, fun h => ?_⟩
  rw [full_context_build, full_context_build] at h
  have hd := congrArg String.data h
  simp only [String.data_append, List.append_assoc] at hd
  have hd2 := List.append_cancel_left hd
  have hd3 := List.append_cancel_left hd2
  have hd4 := List.append_cancel_right hd3
  have h5 := congrArg (List.take 5) hd4
  have e1 : (get_schemas_for_domains ["projects", "budgets"]).data.take 5 =
      ['\n', '#', '#', ' ', 'P'] := by decide
  have e2 : (get_schemas_for_domains ["budgets", "projects"]).data.take 5 =
      ['\n', '#', '#', ' ', 'B'] := by decide
  rw [e1, e2] at h5
  exact absurd h5 (by decide)

/-- C5 amended: schema-context rendering is a pure function of the sequence
of per-domain schema texts that the input list selects (so equal lists — or
lists selecting the same schemas in the same order, e.g. up to case and
unknown domains — give byte-identical `full_context`); the concatenation
order is the input order, not a fixed stable domain ordering. -/
theorem C5_schema_context_determinism (d₁ d₂ : List String)
    (h : domainSchemasList d₁ = domainSchemasList d₂) :
    (build_schema_context d₁).full_context = (build_schema_context d₂).full_context := by
  rw [full_context_build, full_context_build, get_schemas_for_domains,
    get_schemas_for_domains, h]

/-- Witness for C5's amended claim: case-differing spellings and an unknown
domain select the same schema sequence, hence the same rendered context. -/
theorem C5_schema_context_determinism_witness :
    domainSchemasList ["Projects", "nosuch"] = domainSchemasList ["PROJECTS"] ∧
      (build_schema_context ["Projects", "nosuch"]).full_context =
        (build_schema_context ["PROJECTS"]).full_context := by
  have h : domainSchemasList ["Projects", "nosuch"] = domainSchemasList ["PROJECTS"] := rfl
  exact ⟨h, C5_schema_context_determinism _ _ h⟩

/-! ## Retry-counter lemmas -/

lemma classify_node_count (s : AgentState) (o : Except String ClassifierResult) :
    (classify_intent_node s o).sql_retry_count = s.sql_retry_count := by
  cases o <;> rfl

lemma select_node_count (s : AgentState) (o : Except String SelectorResult) :
    (select_tables_node s o).sql_retry_count = s.sql_retry_count := by
  cases o <;> rfl

lemma generate_node_count (s : AgentState) (o : Except String GeneratorResult) :
    (generate_sql_node s o).sql_retry_count = s.sql_retry_count := by
  cases o <;> rfl

lemma analyze_node_count (s : AgentState) (o : Except String AnalyzerRaw) :
    (analyze_results_node s o).sql_retry_count = s.sql_retry_count := by
  unfold analyze_results_node
  split
  · rfl
  · split <;> rfl

lemma validate_sql_node_spec (s : AgentState)
    (parse : Except String (List (Option String))) :
    (validate_sql_node s parse).sql_retry_count = s.sql_retry_count ∨
      ((validate_sql_node s parse).sql_retry_count = s.sql_retry_count + 1 ∧
        pyTruthy (validate_sql_node s parse).sql_validation_error = true) := by
  unfold validate_sql_node
  by_cases hg : (!pyTruthy s.generated_sql) = true
  · rw [if_pos hg]
    refine Or.inr ⟨rfl, ?_⟩
    show pyTruthy (some "No SQL query generated") = true
    rfl
  · rw [if_neg hg]
    cases hv : (SQLValidator.validate (s.generated_sql.getD "") parse).1 with
    | true =>
      left
      simp only [hv, eq_self_iff_true, if_true]
    | false =>
      right
      obtain ⟨r, hr, hne⟩ := SQLValidator.validate_false_reason _ _ hv
      constructor
      · simp only [hv, Bool.false_eq_true, if_false]
      · simp only [hv, Bool.false_eq_true, if_false]
        show pyTruthy (SQLValidator.validate (s.generated_sql.getD "") parse).2 = true
        rw [hr]
        exact bne_iff_ne.2 hne

lemma execute_query_tool_error (sql : String) (limit : Nat)
    (parse : Except String (List (Option String))) (db : Except String (List Row))
    (h : (DatabaseTools.execute_query sql limit parse db).1.success = false) :
    ∃ e, (DatabaseTools.execute_query sql limit parse db).1.error = some e ∧ e ≠ "" := by
  unfold DatabaseTools.execute_query at h ⊢
  cases hv : (SQLValidator.validate sql parse).1 with
  | false =>
    simp only [hv, Bool.not_false, if_true]
    exact ⟨_, rfl, append_ne_empty_left _ _ (by decide)⟩
  | true =>
    simp only [hv, Bool.not_true, Bool.false_eq_true, if_false] at h ⊢
    cases db with
    | ok rows => simp at h
    | error e => exact ⟨_, rfl, append_ne_empty_left _ _ (by decide)⟩

lemma execute_query_node_spec (s : AgentState) (o : ExecOracle) :
    (execute_query_node s o).sql_retry_count = s.sql_retry_count ∨
      ((execute_query_node s o).sql_retry_count = s.sql_retry_count + 1 ∧
        pyTruthy (execute_query_node s o).query_error = true) := by
  unfold execute_query_node
  split
  · exact Or.inl rfl
  · cases o with
    | session parse db =>
      cases hs : (DatabaseTools.execute_query (s.generated_sql.getD "") 1000 parse db).1.success with
      | true =>
        left
        simp only [hs, eq_self_iff_true, if_true]
      | false =>
        right
        obtain ⟨e, he, hne⟩ := execute_query_tool_error _ _ _ _ hs
        constructor
        · simp only [hs, Bool.false_eq_true, if_false]
        · simp only [hs, Bool.false_eq_true, if_false]
          show pyTruthy (DatabaseTools.execute_query (s.generated_sql.getD "") 1000 parse db).1.error = true
          rw [he]
          exact bne_iff_ne.2 hne
    | exn e => exact Or.inl rfl

lemma route_validation_split (s : AgentState) (h : pyTruthy s.sql_validation_error = true) :
    route_after_sql_validation s =
      (if s.sql_retry_count < MAX_SQL_RETRIES then Node.generate_sql else Node.handle_error) := by
  unfold route_after_sql_validation
  simp only [h, Bool.not_true, Bool.false_eq_true, if_false]

lemma route_execution_split (s : AgentState) (h : pyTruthy s.query_error = true) :
    route_after_query_execution s =
      (if s.sql_retry_count < MAX_SQL_RETRIES then Node.generate_sql else Node.handle_error) := by
  unfold route_after_query_execution
  simp only [h, Bool.not_true, Bool.false_eq_true, if_false]

/-- The reachability invariant behind the retry bound: the shared counter
never exceeds `MAX_SQL_RETRIES`, and on the nodes that can still lead to an
increment it is at most `MAX_SQL_RETRIES - 1`. -/
lemma retry_invariant :
    ∀ cfg : Node × AgentState, Reachable cfg →
      cfg.2.sql_retry_count ≤ MAX_SQL_RETRIES ∧
        (cfg.1 = Node.classify_intent ∨ cfg.1 = Node.select_tables ∨
          cfg.1 = Node.generate_sql ∨ cfg.1 = Node.validate_sql ∨
          cfg.1 = Node.execute_query → cfg.2.sql_retry_count ≤ 2) := by
  intro cfg h
  induction h with
  | init question user_id session_id timestamp email person_id company_id history =>
    refine ⟨?_, fun _ => ?_⟩ <;> · show (0 : Nat) ≤ _; omega
  | step ha hstep ih =>
    cases hstep with
    | classify s o =>
      have h2 : s.sql_retry_count ≤ 2 := ih.2 (Or.inl rfl)
      have hc := classify_node_count s o
      refine ⟨?_, fun _ => ?_⟩
      · show (classify_intent_node s o).sql_retry_count ≤ MAX_SQL_RETRIES
        rw [hc]
        exact le_trans h2 (by decide)
      · show (classify_intent_node s o).sql_retry_count ≤ 2
        rw [hc]; exact h2
    | select s o =>
      have h2 : s.sql_retry_count ≤ 2 := ih.2 (Or.inr (Or.inl rfl))
      have hc := select_node_count s o
      refine ⟨?_, fun _ => ?_⟩
      · show (select_tables_node s o).sql_retry_count ≤ MAX_SQL_RETRIES
        rw [hc]
        exact le_trans h2 (by decide)
      · show (select_tables_node s o).sql_retry_count ≤ 2
        rw [hc]; exact h2
    | generate s o =>
      have h2 : s.sql_retry_count ≤ 2 := ih.2 (Or.inr (Or.inr (Or.inl rfl)))
      have hc := generate_node_count s o
      refine ⟨?_, fun _ => ?_⟩
      · show (generate_sql_node s o).sql_retry_count ≤ MAX_SQL_RETRIES
        rw [hc]
        exact le_trans h2 (by decide)
      · show (generate_sql_node s o).sql_retry_count ≤ 2
        rw [hc]; exact h2
    | validate s parse =>
      have h2 : s.sql_retry_count ≤ 2 := ih.2 (Or.inr (Or.inr (Or.inr (Or.inl rfl))))
      rcases validate_sql_node_spec s parse with hc | ⟨hc, htr⟩
      · refine ⟨?_, fun _ => ?_⟩
        · show (validate_sql_node s parse).sql_retry_count ≤ MAX_SQL_RETRIES
          rw [hc]
          exact le_trans h2 (by decide)
        · show (validate_sql_node s parse).sql_retry_count ≤ 2
          rw [hc]; exact h2
      · by_cases hlt : (validate_sql_node s parse).sql_retry_count < MAX_SQL_RETRIES
        · refine ⟨le_of_lt hlt, fun _ => ?_⟩
          show (validate_sql_node s parse).sql_retry_count ≤ 2
          have hM : MAX_SQL_RETRIES = 3 := rfl
          rw [hM] at hlt
          omega
        · have hroute : route_after_sql_validation (validate_sql_node s parse) =
              Node.handle_error := by
            rw [route_validation_split _ htr, if_neg hlt]
          refine ⟨?_, fun hact => ?_⟩
          · show (validate_sql_node s parse).sql_retry_count ≤ MAX_SQL_RETRIES
            have hM : MAX_SQL_RETRIES = 3 := rfl
            rw [hc, hM]
            omega
          · rw [hroute] at hact
            rcases hact with hx | hx | hx | hx | hx <;> exact Node.noConfusion hx
    | execute s o =>
      have h2 : s.sql_retry_count ≤ 2 := ih.2 (Or.inr (Or.inr (Or.inr (Or.inr rfl))))
      rcases execute_query_node_spec s o with hc | ⟨hc, htr⟩
      · refine ⟨?_, fun _ => ?_⟩
        · show (execute_query_node s o).sql_retry_count ≤ MAX_SQL_RETRIES
          rw [hc]
          exact le_trans h2 (by decide)
        · show (execute_query_node s o).sql_retry_count ≤ 2
          rw [hc]; exact h2
      · by_cases hlt : (execute_query_node s o).sql_retry_count < MAX_SQL_RETRIES
        · refine ⟨le_of_lt hlt, fun _ => ?_⟩
          show (execute_query_node s o).sql_retry_count ≤ 2
          have hM : MAX_SQL_RETRIES = 3 := rfl
          rw [hM] at hlt
          omega
        · have hroute : route_after_query_execution (execute_query_node s o) =
              Node.handle_error := by
            rw [route_execution_split _ htr, if_neg hlt]
          refine ⟨?_, fun hact => ?_⟩
          · show (execute_query_node s o).sql_retry_count ≤ MAX_SQL_RETRIES
            have hM : MAX_SQL_RETRIES = 3 := rfl
            rw [hc, hM]
            omega
          · rw [hroute] at hact
            rcases hact with hx | hx | hx | hx | hx <;> exact Node.noConfusion hx
    | analyze s o =>
      have hc := analyze_node_count s o
      refine ⟨?_, fun hact => ?_⟩
      · show (analyze_results_node s o).sql_retry_count ≤ MAX_SQL_RETRIES
        rw [hc]
        exact ih.1
      · rcases hact with hx | hx | hx | hx | hx <;> exact Node.noConfusion hx
    | format s now =>
      refine ⟨ih.1, fun hact => ?_⟩
      rcases hact with hx | hx | hx | hx | hx <;> exact Node.noConfusion hx
    | clarification s now =>
      refine ⟨ih.1, fun hact => ?_⟩
      rcases hact with hx | hx | hx | hx | hx <;> exact Node.noConfusion hx
    | general s now =>
      refine ⟨ih.1, fun hact => ?_⟩
      rcases hact with hx | hx | hx | hx | hx <;> exact Node.noConfusion hx
    | error s now =>
      refine ⟨ih.1, fun hact => ?_⟩
      rcases hact with hx | hx | hx | hx | hx <;> exact Node.noConfusion hx

/-! ## Claim C2 -/

/-- C2: in every reachable configuration of the workflow the shared retry
counter is at most `MAX_SQL_RETRIES = 3`; and whenever routing after SQL
validation or after query execution observes a failure with the counter at
or above the bound, it routes to `handle_error`. -/
theorem C2_retry_bound :
    (∀ (n : Node) (s : AgentState), Reachable (n, s) →
      s.sql_retry_count ≤ MAX_SQL_RETRIES) ∧
    (∀ s : AgentState, pyTruthy s.sql_validation_error = true →
      MAX_SQL_RETRIES ≤ s.sql_retry_count →
      route_after_sql_validation s = Node.handle_error) ∧
    (∀ s : AgentState, pyTruthy s.query_error = true →
      MAX_SQL_RETRIES ≤ s.sql_retry_count →
      route_after_query_execution s = Node.handle_error) := by
  refine ⟨fun n s h => (retry_invariant (n, s) h).1, fun s ht hge => ?_, fun s ht hge => ?_⟩
  · rw [route_validation_split s ht, if_neg (by omega)]
  · rw [route_execution_split s ht, if_neg (by omega)]

/-- Witness for C2: the initial configuration satisfies the bound, and at
the bound a failed validation and a failed execution both route to
`handle_error`. -/
theorem C2_retry_bound_witness :
    (create_initial_state "q" "u" "sid" none none none [] "t0").sql_retry_count ≤
        MAX_SQL_RETRIES ∧
      route_after_sql_validation
        { create_initial_state "q" "u" "sid" none none none [] "t0" with
          sql_validation_error := some "bad SQL", sql_retry_count := 3 } =
        Node.handle_error ∧
      route_after_query_execution
        { create_initial_state "q" "u" "sid" none none none [] "t0" with
          query_error := some "exec failed", sql_retry_count := 3 } =
        Node.handle_error :=
  ⟨C2_retry_bound.1 _ _ (Reachable.init "q" "u" "sid" "t0" none none none []),
   C2_retry_bound.2.1 _ (by decide) (by decide),
   C2_retry_bound.2.2 _ (by decide) (by decide)⟩

/-! ## Claim C3 -/

lemma reach_execTrace4 : Reachable (Node.execute_query, execTrace4) := by
  have h0 : Reachable (Node.classify_intent, sampleInit) :=
    Reachable.init "What is the total budget for all projects?" "anonymous" "sid-1"
      "2026-01-01T00:00:00" none none none []
  have h1 : Reachable (Node.select_tables, execTrace1) := by
    have hs := Step.classify sampleInit
      (Except.ok { intent := "db_query", requires_db_query := true,
                   clarification_needed := false, clarification_questions := none })
    have hr : route_after_classification
        (classify_intent_node sampleInit
          (Except.ok { intent := "db_query", requires_db_query := true,
                       clarification_needed := false, clarification_questions := none })) =
        Node.select_tables := by decide
    have h := Reachable.step h0 hs
    rw [hr] at h
    exact h
  have h2 : Reachable (Node.generate_sql, execTrace2) :=
    Reachable.step h1 (Step.select execTrace1
      (Except.ok { selected_domains := ["projects", "budgets"], reasoning := "budget question" }))
  have h3 : Reachable (Node.validate_sql, execTrace3) :=
    Reachable.step h2 (Step.generate execTrace2
      (Except.ok { sql_query := "SELECT 1", explanation := "trivial query" }))
  have hs4 := Step.validate execTrace3 (Except.ok [some "Select"])
  have hr4 : route_after_sql_validation
      (validate_sql_node execTrace3 (Except.ok [some "Select"])) = Node.execute_query := by
    decide
  have h4 := Reachable.step h3 hs4
  rw [hr4] at h4
  exact h4

/-- C3 counterexample: from a reachable `execute_query` configuration, an
execution attempt that fails by raising around session acquisition (modelled
by `ExecOracle.exn`) records a query error and routes back to
`generate_sql`, yet leaves `sql_retry_count` unchanged — the counter does
not advance toward the bound on this failing attempt. -/
theorem C3_exec_failure_no_increment_cex :
    Reachable (Node.execute_query, execTrace4) ∧
      pyTruthy (execute_query_node execTrace4
        (ExecOracle.exn "connection refused")).query_error = true ∧
      (execute_query_node execTrace4 (ExecOracle.exn "connection refused")).sql_retry_count =
        execTrace4.sql_retry_count ∧
      route_after_query_execution
        (execute_query_node execTrace4 (ExecOracle.exn "connection refused")) =
        Node.generate_sql :=
  ⟨reach_execTrace4, by decide, by decide, by decide⟩

/-- C3 amended: an execution failure reported by the database tools (a
`success=false` tool response) is treated like a validation failure — it
increments the shared `sql_retry_count` by one before routing, and then
routes to `generate_sql` or `handle_error`; but an execution attempt that
raises around session acquisition records the error without touching the
counter. -/
theorem C3_exec_failure_retry_amended (s : AgentState)
    (parse : Except String (List (Option String))) (db : Except String (List Row))
    (e : String) (hsql : pyTruthy s.generated_sql = true)
    (hfail : (DatabaseTools.execute_query (s.generated_sql.getD "") 1000 parse db).1.success =
      false) :
    ((execute_query_node s (ExecOracle.session parse db)).sql_retry_count =
        s.sql_retry_count + 1 ∧
      (route_after_query_execution (execute_query_node s (ExecOracle.session parse db)) =
          Node.generate_sql ∨
        route_after_query_execution (execute_query_node s (ExecOracle.session parse db)) =
          Node.handle_error)) ∧
      (execute_query_node s (ExecOracle.exn e)).sql_retry_count = s.sql_retry_count := by
  have hg : ¬((!pyTruthy s.generated_sql) = true) := by simp [hsql]
  obtain ⟨e', he', hne'⟩ := execute_query_tool_error _ _ _ _ hfail
  have htr : pyTruthy (execute_query_node s (ExecOracle.session parse db)).query_error = true := by
    unfold execute_query_node
    rw [if_neg hg]
    simp only [hfail, Bool.false_eq_true, if_false]
    show pyTruthy (DatabaseTools.execute_query (s.generated_sql.getD "") 1000 parse db).1.error =
      true
    rw [he']
    exact bne_iff_ne.2 hne'
  refine ⟨⟨?_, ?_⟩, ?_⟩
  · unfold execute_query_node
    rw [if_neg hg]
    simp only [hfail, Bool.false_eq_true, if_false]
  · rw [route_execution_split _ htr]
    by_cases hlt : (execute_query_node s (ExecOracle.session parse db)).sql_retry_count <
        MAX_SQL_RETRIES
    · rw [if_pos hlt]
      exact Or.inl rfl
    · rw [if_neg hlt]
      exact Or.inr rfl
  · unfold execute_query_node
    rw [if_neg hg]

/-- Witness for C3's amended claim: a tool-reported failure at the sample
state increments the counter; a raised failure leaves it unchanged. -/
theorem C3_exec_failure_retry_amended_witness :
    ((execute_query_node execTrace4
        (ExecOracle.session (Except.ok [some "Select"])
          (Except.error "missing relation"))).sql_retry_count =
        execTrace4.sql_retry_count + 1 ∧
      (route_after_query_execution (execute_query_node execTrace4
          (ExecOracle.session (Except.ok [some "Select"]) (Except.error "missing relation"))) =
          Node.generate_sql ∨
        route_after_query_execution (execute_query_node execTrace4
          (ExecOracle.session (Except.ok [some "Select"]) (Except.error "missing relation"))) =
          Node.handle_error)) ∧
      (execute_query_node execTrace4 (ExecOracle.exn "connection refused")).sql_retry_count =
        execTrace4.sql_retry_count :=
  C3_exec_failure_retry_amended execTrace4 (Except.ok [some "Select"])
    (Except.error "missing relation") "connection refused" (by decide) (by decide)

/-! ## Claim C6: confidence bounds -/

lemma classify_node_conf (s : AgentState) (o : Except String ClassifierResult) :
    (classify_intent_node s o).confidence = s.confidence := by
  cases o <;> rfl

lemma select_node_conf (s : AgentState) (o : Except String SelectorResult) :
    (select_tables_node s o).confidence = s.confidence := by
  cases o <;> rfl

lemma generate_node_conf (s : AgentState) (o : Except String GeneratorResult) :
    (generate_sql_node s o).confidence = s.confidence := by
  cases o <;> rfl

lemma validate_node_conf (s : AgentState) (parse : Except String (List (Option String))) :
    (validate_sql_node s parse).confidence = s.confidence := by
  unfold validate_sql_node
  by_cases hg : (!pyTruthy s.generated_sql) = true
  · rw [if_pos hg]
  · rw [if_neg hg]
    cases hv : (SQLValidator.validate (s.generated_sql.getD "") parse).1 with
    | true => simp only [hv, eq_self_iff_true, if_true]
    | false => simp only [hv, Bool.false_eq_true, if_false]

lemma execute_node_conf (s : AgentState) (o : ExecOracle) :
    (execute_query_node s o).confidence = s.confidence := by
  unfold execute_query_node
  split
  · rfl
  · cases o with
    | session parse db =>
      cases hs : (DatabaseTools.execute_query (s.generated_sql.getD "") 1000 parse db).1.success
        with
      | true => simp only [hs, eq_self_iff_true, if_true]
      | false => simp only [hs, Bool.false_eq_true, if_false]
    | exn e => rfl

lemma forward_conf_bounds (o : Except String AnalyzerRaw) (a r : String) (c : ℚ)
    (h : AnalysisSynthesizer.forward o = Except.ok (a, r, c)) : 0 ≤ c ∧ c ≤ 1 := by
  have hclamp : ∀ q : ℚ, 0 ≤ max 0 (min 1 q) ∧ max 0 (min 1 q) ≤ 1 := fun q =>
    ⟨le_max_left 0 _, max_le (by norm_num) (min_le_left 1 q)⟩
  cases o with
  | error e =>
    unfold AnalysisSynthesizer.forward at h
    exact Except.noConfusion h
  | ok raw =>
    unfold AnalysisSynthesizer.forward at h
    cases hc : raw.confidence with
    | num q =>
      simp only [hc] at h
      injection h with h'
      simp only [Prod.mk.injEq] at h'
      rw [← h'.2.2]
      exact hclamp q
    | str p =>
      cases p with
      | some q =>
        simp only [hc] at h
        injection h with h'
        simp only [Prod.mk.injEq] at h'
        rw [← h'.2.2]
        exact hclamp q
      | none =>
        simp only [hc] at h
        injection h with h'
        simp only [Prod.mk.injEq] at h'
        rw [← h'.2.2]
        exact hclamp 0.7
    | pyNone =>
      simp only [hc] at h
      exact Except.noConfusion h
    | other =>
      simp only [hc] at h
      exact Except.noConfusion h

lemma analyze_node_conf_bounds (s : AgentState) (o : Except String AnalyzerRaw)
    (h0 : 0 ≤ s.confidence) (h1 : s.confidence ≤ 1) :
    0 ≤ (analyze_results_node s o).confidence ∧ (analyze_results_node s o).confidence ≤ 1 := by
  unfold analyze_results_node
  split
  · constructor
    · show (0 : ℚ) ≤ 0.3
      norm_num
    · show (0.3 : ℚ) ≤ 1
      norm_num
  · cases hf : AnalysisSynthesizer.forward o with
    | ok p =>
      obtain ⟨a, r, c⟩ := p
      simp only [hf]
      exact forward_conf_bounds o a r c hf
    | error e =>
      simp only [hf]
      exact ⟨h0, h1⟩

/-- C6: in every reachable configuration — in particular at the end of every
completed turn — the `confidence` field of the result `ProcastAgent.query`
assembles lies within `[0, 1]`, whatever (possibly malformed) confidence
values the analysis adapter returned along the way. -/
theorem C6_confidence_bounds :
    ∀ (n : Node) (s : AgentState), Reachable (n, s) →
      0 ≤ (ProcastAgent.queryResult s).confidence ∧
        (ProcastAgent.queryResult s).confidence ≤ 1 := by
  suffices h' : ∀ cfg : Node × AgentState, Reachable cfg →
      0 ≤ cfg.2.confidence ∧ cfg.2.confidence ≤ 1 by
    intro n s h
    exact h' (n, s) h
  intro cfg hr
  induction hr with
  | init question user_id session_id timestamp email person_id company_id history =>
    constructor
    · show (0 : ℚ) ≤ 0.0
      norm_num
    · show (0.0 : ℚ) ≤ 1
      norm_num
  | step ha hstep ih =>
    cases hstep with
    | classify s o =>
      refine ⟨?_, ?_⟩ <;> · rw [show ((_, classify_intent_node s o).2.confidence) =
          s.confidence from classify_node_conf s o]
                            first
                            | exact ih.1
                            | exact ih.2
    | select s o =>
      refine ⟨?_, ?_⟩ <;> · rw [show ((_, select_tables_node s o).2.confidence) =
          s.confidence from select_node_conf s o]
                            first
                            | exact ih.1
                            | exact ih.2
    | generate s o =>
      refine ⟨?_, ?_⟩ <;> · rw [show ((_, generate_sql_node s o).2.confidence) =
          s.confidence from generate_node_conf s o]
                            first
                            | exact ih.1
                            | exact ih.2
    | validate s parse =>
      refine ⟨?_, ?_⟩ <;> · rw [show ((_, validate_sql_node s parse).2.confidence) =
          s.confidence from validate_node_conf s parse]
                            first
                            | exact ih.1
                            | exact ih.2
    | execute s o =>
      refine ⟨?_, ?_⟩ <;> · rw [show ((_, execute_query_node s o).2.confidence) =
          s.confidence from execute_node_conf s o]
                            first
                            | exact ih.1
                            | exact ih.2
    | analyze s o => exact analyze_node_conf_bounds s o ih.1 ih.2
    | format s now => exact ih
    | clarification s now => exact ih
    | general s now => exact ih
    | error s now => exact ih

/-- Witness for C6 at the end of the sample degraded turn (whose analysis
adapter returned confidence 0.9). -/
theorem C6_confidence_bounds_witness :
    0 ≤ (ProcastAgent.queryResult sampleInit).confidence ∧
      (ProcastAgent.queryResult sampleInit).confidence ≤ 1 :=
  C6_confidence_bounds Node.classify_intent sampleInit
    (Reachable.init "What is the total budget for all projects?" "anonymous" "sid-1"
      "2026-01-01T00:00:00" none none none [])

/-! ## Claim C7: empty result set short-circuits analysis -/

/-- C7: when query execution succeeds with an empty row set, routing goes to
`analyze_results`, which short-circuits: its update is independent of the
analyzer oracle (the adapter is never consulted and the LLM-call counter does
not move), sets the fixed no-data analysis text and confidence `0.3 ≤ 1/2`,
and the formatted response states that no data was returned. -/
theorem C7_empty_rows_short_circuit (s : AgentState)
    (parse : Except String (List (Option String)))
    (o₁ o₂ : Except String AnalyzerRaw) (now : String)
    (hsql : pyTruthy s.generated_sql = true)
    (hvalid : (SQLValidator.validate (s.generated_sql.getD "") parse).1 = true) :
    route_after_query_execution
        (execute_query_node s (ExecOracle.session parse (Except.ok []))) =
      Node.analyze_results ∧
    analyze_results_node (execute_query_node s (ExecOracle.session parse (Except.ok []))) o₁ =
      analyze_results_node (execute_query_node s (ExecOracle.session parse (Except.ok []))) o₂ ∧
    (analyze_results_node (execute_query_node s (ExecOracle.session parse (Except.ok [])))
        o₁).analysis = some noDataAnalysis ∧
    (analyze_results_node (execute_query_node s (ExecOracle.session parse (Except.ok [])))
        o₁).confidence = 0.3 ∧
    (analyze_results_node (execute_query_node s (ExecOracle.session parse (Except.ok [])))
        o₁).confidence ≤ 1 / 2 ∧
    (analyze_results_node (execute_query_node s (ExecOracle.session parse (Except.ok [])))
        o₁).total_llm_calls =
      (execute_query_node s (ExecOracle.session parse (Except.ok []))).total_llm_calls ∧
    ∃ rest,
      (format_response_node
          (analyze_results_node
            (execute_query_node s (ExecOracle.session parse (Except.ok []))) o₁)
          now).response = some (noDataAnalysis ++ rest) := by
  have hresp : (DatabaseTools.execute_query (s.generated_sql.getD "") 1000 parse
      (Except.ok [])).1 =
      { success := true, data := some ([] : List Row), row_count := 0,
        metadata := some ToolMeta.query_result } := by
    unfold DatabaseTools.execute_query
    simp only [hvalid, Bool.not_true, Bool.false_eq_true, if_false]
    rfl
  have hse : execute_query_node s (ExecOracle.session parse (Except.ok [])) =
      { s with query_results := some [], query_row_count := 0, query_error := none,
               total_db_queries := s.total_db_queries + 1 } := by
    unfold execute_query_node
    rw [if_neg (by simp [hsql])]
    simp only [hresp]
    rw [if_pos trivial]
  rw [hse]
  refine ⟨rfl, rfl, rfl, rfl, ?_, rfl, ?_⟩
  · show (0.3 : ℚ) ≤ 1 / 2
    norm_num
  · refine ⟨"\n\n### Recommendations\n\n" ++ noDataRecommendations ++ "\n" ++
      confidenceNote 0.3, ?_⟩
    have han : analyze_results_node
        { s with query_results := some [], query_row_count := 0, query_error := none,
                 total_db_queries := s.total_db_queries + 1 } o₁ =
        { s with query_results := some [], query_row_count := 0, query_error := none,
                 total_db_queries := s.total_db_queries + 1,
                 analysis := some noDataAnalysis,
                 recommendations := some noDataRecommendations,
                 confidence := 0.3 } := rfl
    rw [han]
    simp only [format_response_node]
    rw [if_pos (show pyTruthy (some noDataAnalysis) = true from rfl),
      if_pos (show pyTruthy (some noDataRecommendations) = true from rfl),
      if_pos (show (0.3 : ℚ) < 0.7 from by norm_num)]
    rfl

/-- Witness for C7 at the sample turn whose validated SQL executes to zero
rows, with two different analyzer oracles (one of them a malformed `None`
confidence, one a raised exception). -/
theorem C7_empty_rows_short_circuit_witness :
    route_after_query_execution
        (execute_query_node execTrace4
          (ExecOracle.session (Except.ok [some "Select"]) (Except.ok []))) =
      Node.analyze_results ∧
    analyze_results_node
        (execute_query_node execTrace4
          (ExecOracle.session (Except.ok [some "Select"]) (Except.ok [])))
        (Except.ok { analysis := "ignored", recommendations := "ignored",
                     confidence := PyConf.pyNone }) =
      analyze_results_node
        (execute_query_node execTrace4
          (ExecOracle.session (Except.ok [some "Select"]) (Except.ok [])))
        (Except.error "adapter down") ∧
    (analyze_results_node
        (execute_query_node execTrace4
          (ExecOracle.session (Except.ok [some "Select"]) (Except.ok [])))
        (Except.ok { analysis := "ignored", recommendations := "ignored",
                     confidence := PyConf.pyNone })).analysis = some noDataAnalysis ∧
    (analyze_results_node
        (execute_query_node execTrace4
          (ExecOracle.session (Except.ok [some "Select"]) (Except.ok [])))
        (Except.ok { analysis := "ignored", recommendations := "ignored",
                     confidence := PyConf.pyNone })).confidence = 0.3 ∧
    (analyze_results_node
        (execute_query_node execTrace4
          (ExecOracle.session (Except.ok [some "Select"]) (Except.ok [])))
        (Except.ok { analysis := "ignored", recommendations := "ignored",
                     confidence := PyConf.pyNone })).confidence ≤ 1 / 2 ∧
    (analyze_results_node
        (execute_query_node execTrace4
          (ExecOracle.session (Except.ok [some "Select"]) (Except.ok [])))
        (Except.ok { analysis := "ignored", recommendations := "ignored",
                     confidence := PyConf.pyNone })).total_llm_calls =
      (execute_query_node execTrace4
        (ExecOracle.session (Except.ok [some "Select"]) (Except.ok []))).total_llm_calls ∧
    ∃ rest,
      (format_response_node
          (analyze_results_node
            (execute_query_node execTrace4
              (ExecOracle.session (Except.ok [some "Select"]) (Except.ok [])))
            (Except.ok { analysis := "ignored", recommendations := "ignored",
                         confidence := PyConf.pyNone }))
          "2026-01-01T00:00:05").response = some (noDataAnalysis ++ rest) :=
  C7_empty_rows_short_circuit execTrace4 (Except.ok [some "Select"])
    (Except.ok { analysis := "ignored", recommendations := "ignored",
                 confidence := PyConf.pyNone })
    (Except.error "adapter down") "2026-01-01T00:00:05" (by decide) (by decide)

/-! ## Claim C8: classifier failure degradation -/

lemma reach_degraded_end : Reachable (Node.END, degradedTrace7) := by
  have h0 : Reachable (Node.classify_intent, sampleInit) :=
    Reachable.init "What is the total budget for all projects?" "anonymous" "sid-1"
      "2026-01-01T00:00:00" none none none []
  have h1 : Reachable (Node.select_tables, degradedTrace1) := by
    have hs := Step.classify sampleInit (Except.error "LLM down")
    have hr : route_after_classification
        (classify_intent_node sampleInit (Except.error "LLM down")) = Node.select_tables := by
      decide
    have h := Reachable.step h0 hs
    rw [hr] at h
    exact h
  have h2 : Reachable (Node.generate_sql, degradedTrace2) :=
    Reachable.step h1 (Step.select degradedTrace1
      (Except.ok { selected_domains := ["projects", "budgets"], reasoning := "budget question" }))
  have h3 : Reachable (Node.validate_sql, degradedTrace3) :=
    Reachable.step h2 (Step.generate degradedTrace2
      (Except.ok { sql_query := "SELECT 1", explanation := "trivial query" }))
  have h4 : Reachable (Node.execute_query, degradedTrace4) := by
    have hs4 := Step.validate degradedTrace3 (Except.ok [some "Select"])
    have hr4 : route_after_sql_validation
        (validate_sql_node degradedTrace3 (Except.ok [some "Select"])) =
        Node.execute_query := by decide
    have h := Reachable.step h3 hs4
    rw [hr4] at h
    exact h
  have h5 : Reachable (Node.analyze_results, degradedTrace5) := by
    have hs5 := Step.execute degradedTrace4
      (ExecOracle.session (Except.ok [some "Select"]) (Except.ok [[("total", "500000")]]))
    have hr5 : route_after_query_execution
        (execute_query_node degradedTrace4
          (ExecOracle.session (Except.ok [some "Select"])
            (Except.ok [[("total", "500000")]]))) = Node.analyze_results := by decide
    have h := Reachable.step h4 hs5
    rw [hr5] at h
    exact h
  have h6 : Reachable (Node.format_response, degradedTrace6) :=
    Reachable.step h5 (Step.analyze degradedTrace5
      (Except.ok { analysis := "The total budget is 500000.",
                   recommendations := "No action needed.",
                   confidence := PyConf.num 0.9 }))
  exact Reachable.step h6 (Step.format degradedTrace6 "2026-01-01T00:00:05")

/-- C8 counterexample: a turn whose intent classifier raised degrades to the
data-query path and reaches a terminal state — but the soft classification
error is recorded and surfaced in the `error` field of the result
`ProcastAgent.query` returns, which is therefore not `none`. -/
theorem C8_soft_error_surfaced_cex :
    Reachable (Node.END, degradedTrace7) ∧
      (ProcastAgent.queryResult degradedTrace7).error =
        some "Intent classification failed: LLM down" ∧
      (ProcastAgent.queryResult degradedTrace7).error ≠ none :=
  ⟨reach_degraded_end, by decide, by decide⟩

/-- C8 amended: when the intent classifier raises, the node swallows the
exception and degrades the turn to the data-query path (intent `db_query`,
routing to `select_tables`), recording — not discarding — the soft error
`"Intent classification failed: …"` in the state's `error` field, which
`ProcastAgent.query` surfaces in its result. -/
theorem C8_classifier_failure_degrades (s : AgentState) (e : String) :
    (classify_intent_node s (Except.error e)).intent = "db_query" ∧
      (classify_intent_node s (Except.error e)).requires_db_query = true ∧
      route_after_classification (classify_intent_node s (Except.error e)) =
        Node.select_tables ∧
      (classify_intent_node s (Except.error e)).error =
        some ("Intent classification failed: " ++ e) :=
  ⟨rfl, rfl, rfl, rfl⟩

/-! ## Claim C9: the tools re-validate before touching the session -/

/-- C9: `DatabaseTools.execute_query` independently re-validates its SQL
argument: for every SQL that fails validation it returns a failed
`ToolResponse` carrying a non-empty validation error message (and the
`validation_error` metadata marker) and never passes anything to the
session — the safety boundary holds even if the orchestrator's
`ValidateSQL` node is bypassed. -/
theorem C9_execute_query_revalidates (sql : String) (limit : Nat)
    (parse : Except String (List (Option String))) (db : Except String (List Row))
    (hinvalid : (SQLValidator.validate sql parse).1 = false) :
    (DatabaseTools.execute_query sql limit parse db).1.success = false ∧
      (∃ msg, (DatabaseTools.execute_query sql limit parse db).1.error =
        some ("SQL validation failed: " ++ msg) ∧ msg ≠ "") ∧
      (DatabaseTools.execute_query sql limit parse db).1.metadata =
        some ToolMeta.validation_error ∧
      (DatabaseTools.execute_query sql limit parse db).2 = none := by
  obtain ⟨r, hr, hne⟩ := SQLValidator.validate_false_reason _ _ hinvalid
  unfold DatabaseTools.execute_query
  simp only [hinvalid, Bool.not_false]
  rw [if_pos trivial]
  refine ⟨rfl, ⟨r, ?_, hne⟩, rfl, rfl⟩
  show some ("SQL validation failed: " ++ pyStrOpt (SQLValidator.validate sql parse).2) =
    some ("SQL validation failed: " ++ r)
  rw [hr]
  rfl

/-- Witness for C9: a `DROP` statement never reaches the session. -/
theorem C9_execute_query_revalidates_witness :
    (DatabaseTools.execute_query "DROP TABLE users" 1000 (Except.ok [some "Drop"])
        (Except.ok [])).1.success = false ∧
      (∃ msg, (DatabaseTools.execute_query "DROP TABLE users" 1000 (Except.ok [some "Drop"])
        (Except.ok [])).1.error = some ("SQL validation failed: " ++ msg) ∧ msg ≠ "") ∧
      (DatabaseTools.execute_query "DROP TABLE users" 1000 (Except.ok [some "Drop"])
        (Except.ok [])).1.metadata = some ToolMeta.validation_error ∧
      (DatabaseTools.execute_query "DROP TABLE users" 1000 (Except.ok [some "Drop"])
        (Except.ok [])).2 = none :=
  C9_execute_query_revalidates "DROP TABLE users" 1000 (Except.ok [some "Drop"])
    (Except.ok []) (by decide)

/-! ## Claim C10: LIMIT handling on execution -/

/-- C10: for every validated query, `DatabaseTools.execute_query` executes
the query text with trailing semicolons stripped and `" LIMIT 1000"`
appended when the uppercased text does not contain the substring `"LIMIT"`,
and executes the text unchanged when it does (even inside a longer word). -/
theorem C10_limit_append (sql : String)
    (parse : Except String (List (Option String))) (db : Except String (List Row))
    (hvalid : (SQLValidator.validate sql parse).1 = true) :
    (containsSub "LIMIT".data (pyUpper sql).data = false →
      (DatabaseTools.execute_query sql 1000 parse db).2 =
        some (rstripSemis sql ++ " LIMIT 1000")) ∧
    (containsSub "LIMIT".data (pyUpper sql).data = true →
      (DatabaseTools.execute_query sql 1000 parse db).2 = some sql) := by
  have hexec : (DatabaseTools.execute_query sql 1000 parse db).2 =
      some (SQLValidator.add_limit_if_missing sql 1000) := by
    unfold DatabaseTools.execute_query
    simp only [hvalid, Bool.not_true, Bool.false_eq_true, if_false]
    cases db <;> rfl
  constructor
  · intro hnl
    rw [hexec]
    unfold SQLValidator.add_limit_if_missing
    rw [if_neg (by rw [hnl]; exact Bool.false_ne_true), String.append_assoc,
      show (" LIMIT " ++ toString (1000 : Nat) : String) = " LIMIT 1000" from rfl]
  · intro hl
    rw [hexec]
    unfold SQLValidator.add_limit_if_missing
    rw [if_pos hl]

/-- Witness for C10 on a query with a trailing semicolon and no LIMIT, and
(for the second branch behaviour) see the hypothesis-free evaluations: this
witness discharges C10's hypothesis at a concrete validated query. -/
theorem C10_limit_append_witness :
    (containsSub "LIMIT".data (pyUpper "SELECT 1;").data = false →
      (DatabaseTools.execute_query "SELECT 1;" 1000 (Except.ok [some "Select"])
          (Except.ok [])).2 = some (rstripSemis "SELECT 1;" ++ " LIMIT 1000")) ∧
    (containsSub "LIMIT".data (pyUpper "SELECT 1;").data = true →
      (DatabaseTools.execute_query "SELECT 1;" 1000 (Except.ok [some "Select"])
          (Except.ok [])).2 = some "SELECT 1;") :=
  C10_limit_append "SELECT 1;" (Except.ok [some "Select"]) (Except.ok []) (by decide)

end Procast
